import Mathlib

/-!
# Interactive boxes: a shallow embedding of `script.js`

The script wires a fixed, ordered collection of `.box` elements.  A box is
identified by its position in that collection (`boxes` in the source); an
index outside the list stands for an element that is not one of the boxes
(`document.getElementById` may return such an element), whose own attributes
are not tracked.  Boxes are taken not to be nested in one another, so every
box owns its panel, preview, controls region and buttons.
-/

namespace InteractiveBoxes

/-! ## Data model -/

/-- The `.panel` child of a box; `ariaHidden` is its `aria-hidden` attribute
(`none` when the attribute is absent). -/
structure Panel where
  ariaHidden : Option String
  deriving DecidableEq, Repr

/-- The `.preview` child of a box with the inline styles and text the script writes. -/
structure Preview where
  background : String
  color : String
  textContent : String
  height : String
  deriving DecidableEq, Repr

/-- A `.sizes button` element: `data-size`, the `active` class and `aria-pressed`. -/
structure SizeButton where
  dataSize : Option String
  active : Bool
  ariaPressed : Option String
  deriving DecidableEq, Repr

/-- A `.color` element with its `data-color` attribute. -/
structure ColorButton where
  dataColor : Option String
  deriving DecidableEq, Repr

/-- A `.box` element: `aria-expanded`, the first `.panel` descendant, the `open`
class, `style.maxWidth`, `style.borderColor`, whether a `.controls` descendant
exists, the first `.preview` descendant and the colour and size buttons. -/
structure Box where
  ariaExpanded : Option String
  panel : Option Panel
  classOpen : Bool
  maxWidth : String
  borderColor : String
  hasControls : Bool
  preview : Option Preview
  colorButtons : List ColorButton
  sizeButtons : List SizeButton
  deriving DecidableEq, Repr

/-- The page state the handlers act on: the boxes and the box that last received `focus()`. -/
structure State where
  boxes : List Box
  focus : Option Nat
  deriving DecidableEq, Repr

/-! ## closeAll / openBox (lines 6-24) -/

/-- Body of the `forEach` callback of `closeAll` for a box other than `except`. -/
def closeOne (b : Box) : Box :=
  { b with
    ariaExpanded := some "false"
    panel := b.panel.map fun p => { p with ariaHidden := some "true" }
    classOpen := false
    maxWidth := "" }

/-- The function `closeAll(except)`: every box but `except` is closed. -/
def closeAll (except : Option Nat) (boxes : List Box) : List Box :=
  boxes.mapIdx fun i b => if some i = except then b else closeOne b

/-- The four writes `openBox` performs on `box` after `closeAll(box)`. -/
def openOne (b : Box) : Box :=
  { b with
    ariaExpanded := some "true"
    panel := b.panel.map fun p => { p with ariaHidden := some "false" }
    classOpen := true
    maxWidth := "740px" }

/-- The function `openBox(box)`. -/
def openBox (box : Nat) (boxes : List Box) : List Box :=
  (closeAll (some box) boxes).mapIdx fun i b => if i = box then openOne b else b

/-! ## Click handler of a box (lines 28-38) -/

/-- The close branch of the click handler: three writes, `style.maxWidth` is not among them. -/
def collapseOne (b : Box) : Box :=
  { b with
    ariaExpanded := some "false"
    panel := b.panel.map fun p => { p with ariaHidden := some "true" }
    classOpen := false }

/-- The test `box.getAttribute('aria-expanded') === 'true'`. -/
def isOpen (b : Box) : Bool :=
  b.ariaExpanded == some "true"

/-- The click listener registered on box number `box`. -/
def boxClick (box : Nat) (boxes : List Box) : List Box :=
  match boxes[box]? with
  | none => boxes
  | some b =>
    if isOpen b then
      boxes.mapIdx fun i c => if i = box then collapseOne c else c
    else
      openBox box boxes

/-- The startup step (lines 130-132): `defaultBox` is the result of
`document.getElementById('box2')`, `none` for `null`. -/
def startup (defaultBox : Option Nat) (boxes : List Box) : List Box :=
  match defaultBox with
  | none => boxes
  | some d => openBox d boxes


/-! ## Keyboard handler of a box (lines 41-56) -/

/-- The keydown listener registered on box number `box`; `key` is `e.key`.
`box.click()` runs the click listener of the box; `focus()` is recorded in `focus`. -/
def boxKeydown (box : Nat) (key : String) (s : State) : State :=
  if key = "Enter" ∨ key = " " then
    { s with boxes := boxClick box s.boxes }
  else if key = "ArrowDown" then
    let idx := box
    let next := if idx + 1 < s.boxes.length then idx + 1 else 0
    { s with focus := some next }
  else if key = "ArrowUp" then
    let idx := box
    let prev := if 0 < idx then idx - 1 else s.boxes.length - 1
    { s with focus := some prev }
  else s

/-! ## Numbers: `parseInt(h, 16)`, `>>`, `&` and double arithmetic -/

/-- The white space `parseInt` skips at the start of its input (WhiteSpace and LineTerminator). -/
def isStrWhiteSpace (c : Char) : Bool :=
  let n := c.toNat
  n = 9 || n = 10 || n = 11 || n = 12 || n = 13 || n = 32 || n = 160 || n = 5760 ||
    (8192 ≤ n && n ≤ 8202) || n = 8232 || n = 8233 || n = 8239 || n = 8287 || n = 12288 ||
    n = 65279

/-- Value of a radix-16 digit, `none` for any other character. -/
def hexDigit (c : Char) : Option Nat :=
  let n := c.toNat
  if 48 ≤ n ∧ n ≤ 57 then some (n - 48)
  else if 97 ≤ n ∧ n ≤ 102 then some (n - 87)
  else if 65 ≤ n ∧ n ≤ 70 then some (n - 55)
  else none

/-- The values of the longest prefix of radix-16 digits. -/
def takeHexDigits : List Char → List Nat
  | [] => []
  | c :: cs =>
    match hexDigit c with
    | none => []
    | some d => d :: takeHexDigits cs

/-- Removal of a leading `0x` or `0X`, which `parseInt` does for radix 16. -/
def dropHexMarker : List Char → List Char
  | c :: d :: cs => if c = '0' ∧ (d = 'x' ∨ d = 'X') then cs else c :: d :: cs
  | cs => cs

/-- The mathematical integer `parseInt(s, 16)` reads, `none` where it returns `NaN`. -/
def parseInt16 (s : List Char) : Option Int :=
  let s1 := s.dropWhile isStrWhiteSpace
  let neg := s1.head? = some '-'
  let s2 := if s1.head? = some '-' ∨ s1.head? = some '+' then s1.tail else s1
  let z := takeHexDigits (dropHexMarker s2)
  if z = [] then none
  else
    let mathInt : Int := z.foldl (fun a d => 16 * a + (d : Int)) 0
    some (if neg then -mathInt else mathInt)

/-- Rounding of a rational to the nearest integer, ties to the even one. -/
def roundHalfEven (t : ℚ) : Int :=
  let m := ⌊t⌋
  if t - m < 1 / 2 then m
  else if 1 / 2 < t - m then m + 1
  else if m % 2 = 0 then m else m + 1

/-- Rounding to nearest, ties to even, onto 53-bit significands: the value of a binary64
operation whose exact result is `q`, as long as the result is a normal number. -/
def fl (q : ℚ) : ℚ :=
  if q = 0 then 0
  else
    let s := Int.log 2 |q| - 52
    roundHalfEven (q / 2 ^ s) * 2 ^ s

/-- A JavaScript number as far as the script meets one: `NaN`, an infinity or a finite value. -/
inductive Num where
  | nan
  | inf
  | fin (q : ℚ)
  deriving DecidableEq

/-- The number `parseInt(s, 16)`: the nearest double of the integer read. -/
def parseInt (s : List Char) : Num :=
  match parseInt16 s with
  | none => Num.nan
  | some v =>
    if |v| ≤ 2 ^ 53 then Num.fin v
    else if |fl v| < 2 ^ 1024 then Num.fin (fl v) else Num.inf

/-- The conversion ToInt32 applied to the operands of `>>` and `&`. -/
def toInt32 : Num → Int
  | Num.fin q =>
    let t : Int := if 0 ≤ q then ⌊q⌋ else ⌈q⌉
    let m := t % 2 ^ 32
    if 2 ^ 31 ≤ m then m - 2 ^ 32 else m
  | _ => 0

/-- The expression `(bigint >> k) & 255`: an arithmetic shift of the 32-bit value, then the low
eight bits (the two's complement mask `& 255` is the remainder modulo 256). -/
def channel (bigint : Num) (k : Nat) : Int :=
  (toInt32 bigint >>> k) % 256

/-- The first `#` of the text is dropped: `hex.replace('#','')`. -/
def replaceHash : List Char → List Char
  | [] => []
  | c :: cs => if c = '#' then cs else c :: replaceHash cs

/-! ## hexToRgba / getContrastText (lines 109-128) -/

/-- The function `hexToRgba(hex, alpha)`; `alpha` is the text the template literal renders
for the opacity. -/
def hexToRgba (hex : String) (alpha : String) : String :=
  let h := replaceHash hex.data
  let bigint := parseInt h
  let r := channel bigint 16
  let g := channel bigint 8
  let b := channel bigint 0
  "rgba(" ++ toString r ++ "," ++ toString g ++ "," ++ toString b ++ "," ++ alpha ++ ")"

/-- The double `L` computed on line 126 from the three channels. -/
def luminance (r g b : Int) : ℚ :=
  fl (fl (fl (fl (2126 / 10000) * fl ((r : ℚ) / 255)) + fl (fl (7152 / 10000) * fl ((g : ℚ) / 255)))
    + fl (fl (722 / 10000) * fl ((b : ℚ) / 255)))

/-- The function `getContrastText(hex)`. -/
def getContrastText (hex : String) : String :=
  let h := replaceHash hex.data
  let bigint := parseInt h
  let r := channel bigint 16
  let g := channel bigint 8
  let b := channel bigint 0
  let L := luminance r g b
  if fl (6 / 10) < L then "#0f172a" else "#ffffff"

/-! ## Colour and size buttons (lines 64-106) -/

/-- The body of the click listener of colour button `k` of a box, after `e.stopPropagation()`.
A button without `data-color` makes `hexToRgba(null, ...)` throw before anything is written.
`toUpperCase` is rendered for ASCII letters. -/
def colorClick (k : Nat) (b : Box) : Box :=
  match b.colorButtons[k]? with
  | none => b
  | some btn =>
    match btn.dataColor with
    | none => b
    | some color =>
      { b with
        preview := b.preview.map fun p =>
          { p with
            background := "linear-gradient(180deg, " ++ hexToRgba color "0.12" ++ ", " ++
              hexToRgba color "0.06" ++ ")"
            color := getContrastText color
            textContent := "Preview — " ++ color.toUpper }
        borderColor := hexToRgba color "0.14" }

/-- The height chosen for a `data-size` value (lines 97-103). -/
def previewHeight (size : Option String) : String :=
  if size = some "small" then "70px"
  else if size = some "medium" then "110px"
  else "150px"

/-- The body of the click listener of size button `k` of a box, after `e.stopPropagation()`. -/
def sizeClick (k : Nat) (b : Box) : Box :=
  match b.sizeButtons[k]? with
  | none => b
  | some btn =>
    let size := btn.dataSize
    let cleared := b.sizeButtons.map fun x =>
      { x with active := false, ariaPressed := some "false" }
    let pressed := cleared.mapIdx fun i x =>
      if i = k then { x with active := true, ariaPressed := some "true" } else x
    { b with
      sizeButtons := pressed
      preview := b.preview.map fun p => { p with height := previewHeight size } }

/-! ## Click dispatch: listeners from the target up to the box -/

/-- A click listener: the new state and whether it called `stopPropagation`. -/
abbrev Listener := State → State × Bool

/-- Bubbling: the listeners on the path run in order until one stops the propagation. -/
def dispatch : List Listener → State → State
  | [], s => s
  | l :: ls, s => if (l s).2 then (l s).1 else dispatch ls (l s).1

/-- Listener of the box itself (line 28). -/
def boxListener (box : Nat) : Listener :=
  fun s => ({ s with boxes := boxClick box s.boxes }, false)

/-- Listener of the `.controls` region (line 61). -/
def controlsListener : Listener :=
  fun s => (s, true)

/-- Listener of colour button `k` of box `box` (line 67). -/
def colorListener (box k : Nat) : Listener :=
  fun s => ({ s with boxes := s.boxes.mapIdx fun i b => if i = box then colorClick k b else b }, true)

/-- Listener of size button `k` of box `box` (line 84). -/
def sizeListener (box k : Nat) : Listener :=
  fun s => ({ s with boxes := s.boxes.mapIdx fun i b => if i = box then sizeClick k b else b }, true)

/-- Where a click lands inside a box: outside the controls region and the buttons, inside the
controls region but on no button, on colour button `k` or on size button `k`; for a button,
`inControls` tells whether it lies inside the controls region. -/
inductive Target where
  | body
  | controls
  | color (k : Nat) (inControls : Bool)
  | size (k : Nat) (inControls : Bool)
  deriving DecidableEq, Repr

/-- The listeners a click meets on its way from the target up to the box. -/
def clickPath (box : Nat) : Target → List Listener
  | Target.body => [boxListener box]
  | Target.controls => [controlsListener, boxListener box]
  | Target.color k inControls =>
    colorListener box k :: ((if inControls then [controlsListener] else []) ++ [boxListener box])
  | Target.size k inControls =>
    sizeListener box k :: ((if inControls then [controlsListener] else []) ++ [boxListener box])

/-- Whether the target exists in the box. -/
def targetExists (b : Box) : Target → Bool
  | Target.body => true
  | Target.controls => b.hasControls
  | Target.color k inControls => decide (k < b.colorButtons.length) && (!inControls || b.hasControls)
  | Target.size k inControls => decide (k < b.sizeButtons.length) && (!inControls || b.hasControls)

/-- A user event: a click inside a box or a key pressed while the box (or something in it)
has focus. -/
inductive Event where
  | click (box : Nat) (target : Target)
  | keydown (box : Nat) (key : String)
  deriving DecidableEq, Repr

/-- One event handled to completion; an event on an element that does not exist changes nothing. -/
def step (s : State) : Event → State
  | Event.click box target =>
    match s.boxes[box]? with
    | none => s
    | some b => if targetExists b target then dispatch (clickPath box target) s else s
  | Event.keydown box key =>
    if box < s.boxes.length then boxKeydown box key s else s

/-- The state after a sequence of events. -/
def run (s : State) (events : List Event) : State :=
  events.foldl step s

/-- The page after the `DOMContentLoaded` handler has run. -/
def contentLoaded (defaultBox : Option Nat) (s : State) : State :=
  { s with boxes := startup defaultBox s.boxes }

/-! ## Observations used by the statements -/

/-- The four things the toggle handler writes, attribute by attribute: `aria-expanded`, the
`aria-hidden` of the panel (when there is a panel), the open marker and `style.maxWidth`. -/
def toggleView (b : Box) : Option String × Option (Option String) × Bool × String :=
  (b.ariaExpanded, b.panel.map Panel.ariaHidden, b.classOpen, b.maxWidth)

/-- The observable toggle state of a box: expansion flag, panel hidden flag (when there is a
panel), open marker and maximum-width override. -/
def observe (b : Box) : Bool × Option Bool × Bool × String :=
  (isOpen b, b.panel.map (fun p => p.ariaHidden == some "true"), b.classOpen, b.maxWidth)

/-- Number of boxes whose expansion flag is true. -/
def expandedCount (boxes : List Box) : Nat :=
  boxes.countP isOpen

/-! ## Concrete pages used in the statements below -/

/-- Two boxes that the markup already declares expanded. -/
def twoExpanded : List Box :=
  [ { ariaExpanded := some "true", panel := none, classOpen := true, maxWidth := "",
      borderColor := "", hasControls := false, preview := none, colorButtons := [],
      sizeButtons := [] },
    { ariaExpanded := some "true", panel := none, classOpen := true, maxWidth := "",
      borderColor := "", hasControls := false, preview := none, colorButtons := [],
      sizeButtons := [] } ]


/-- A collapsed box as the markup may declare it: a panel, a controls region with two colour
options and three size options, and a preview. -/
def plainBox : Box :=
  { ariaExpanded := some "false", panel := some { ariaHidden := some "true" }, classOpen := false,
    maxWidth := "", borderColor := "", hasControls := true,
    preview := some { background := "", color := "", textContent := "Preview", height := "" },
    colorButtons := [{ dataColor := some "#47B47F" }, { dataColor := some "#999999" }],
    sizeButtons :=
      [ { dataSize := some "small", active := false, ariaPressed := some "false" },
        { dataSize := some "medium", active := true, ariaPressed := some "true" },
        { dataSize := some "large", active := false, ariaPressed := some "false" } ] }

/-- Three collapsed boxes; the second one is the default box of the startup step. -/
def threeBoxes : List Box :=
  [plainBox, plainBox, plainBox]

/-- A box whose expansion flag is false while its panel is shown and it still carries the open
marker and a maximum-width override. -/
def staleBox : Box :=
  { plainBox with
    panel := some { ariaHidden := some "false" }, classOpen := true, maxWidth := "740px" }

/-! ## The luminance in exact arithmetic and the colours on the threshold -/

/-- The luminance formula of the specification, `0.2126*(R/255) + 0.7152*(G/255) +
0.0722*(B/255)`, in exact rational arithmetic. -/
def exactLuminance (r g b : Nat) : ℚ :=
  2126 / 10000 * ((r : ℚ) / 255) + 7152 / 10000 * ((g : ℚ) / 255) + 722 / 10000 * ((b : ℚ) / 255)

/-- The twenty colours whose exact luminance is 0.6, as channel triples. -/
def boundaryColours : List (Nat × Nat × Nat) :=
  [(6, 197, 150), (23, 187, 199), (37, 200, 29), (40, 177, 248), (54, 190, 78),
   (71, 180, 127), (88, 170, 176), (102, 183, 6), (105, 160, 225), (119, 173, 55),
   (136, 163, 104), (153, 153, 153), (170, 143, 202), (184, 156, 32), (187, 133, 251),
   (201, 146, 81), (218, 136, 130), (235, 126, 179), (249, 139, 9), (252, 116, 228)]

/-- The least green channel that can reach `1063 r + 3576 g + 361 b = 765000` with `b ≤ 255`. -/
def greenFloor (r : Nat) : Nat :=
  (672945 - 1063 * r + 3575) / 3576

/-- A search over every red channel and the 27 green channels from `greenFloor` on: each
solution of `1063 r + 3576 g + 361 b = 765000` with `b < 256` is one of `boundaryColours`. -/
def boundaryCheck : Bool :=
  (List.range 256).all fun r => (List.range 27).all fun k =>
    let g := greenFloor r + k
    let rest := 765000 - (1063 * r + 3576 * g)
    !(decide (1063 * r + 3576 * g ≤ 765000) && decide (rest % 361 = 0) &&
        decide (rest / 361 < 256)) ||
      boundaryColours.contains (r, g, rest / 361)

/-! ## Theorems -/

/-! ### openBox closes every other box -/

theorem getElem?_closeAll (except : Option Nat) (boxes : List Box) (j : Nat) :
    (closeAll except boxes)[j]? =
      (boxes[j]?).map fun b => if some j = except then b else closeOne b := by
  simp [closeAll, List.getElem?_mapIdx]

theorem getElem?_openBox (box : Nat) (boxes : List Box) (j : Nat) :
    (openBox box boxes)[j]? =
      (boxes[j]?).map fun b => if j = box then openOne b else closeOne b := by
  simp only [openBox, List.getElem?_mapIdx, getElem?_closeAll, Option.map_map]
  congr 1
  funext b
  by_cases h : j = box <;> simp [h]

theorem length_openBox (box : Nat) (boxes : List Box) :
    (openBox box boxes).length = boxes.length := by
  simp [openBox, closeAll]

/-- C1: after `openBox(B)` on a box B of the collection, B has expansion flag true and the 740px
maximum-width override, every other box has expansion flag false and no override, and startup
with B as the default box is exactly `openBox(B)`. -/
theorem openBox_exclusive (boxes : List Box) (B : Nat) (hB : B < boxes.length) :
    (openBox B boxes).length = boxes.length ∧
    (∃ b, (openBox B boxes)[B]? = some b ∧ b.ariaExpanded = some "true" ∧ b.maxWidth = "740px") ∧
    (∀ j b, j ≠ B → (openBox B boxes)[j]? = some b →
      b.ariaExpanded = some "false" ∧ b.maxWidth = "") ∧
    startup (some B) boxes = openBox B boxes := by
  refine ⟨length_openBox B boxes, ?_, ?_, rfl⟩
  · refine ⟨openOne boxes[B], ?_, rfl, rfl⟩
    simp [getElem?_openBox, List.getElem?_eq_getElem hB]
  · intro j b hj hb
    rw [getElem?_openBox] at hb
    simp only [Option.map_eq_some', if_neg hj] at hb
    obtain ⟨a, _, rfl⟩ := hb
    exact ⟨rfl, rfl⟩


theorem openBox_exclusive_witness :
    1 < threeBoxes.length ∧
    (∃ b, (openBox 1 threeBoxes)[1]? = some b ∧ b.ariaExpanded = some "true" ∧
      b.maxWidth = "740px") :=
  ⟨by decide, (openBox_exclusive threeBoxes 1 (by decide)).2.1⟩

/-! ### At most one box is expanded -/

theorem countP_mapIdx_le (p : Box → Bool) (l : List Box) :
    ∀ f : Nat → Box → Box, (∀ j b, p (f j b) = true → p b = true) →
      (l.mapIdx f).countP p ≤ l.countP p := by
  induction l with
  | nil => intro f _; simp
  | cons a t ih =>
    intro f hf
    rw [List.mapIdx_cons, List.countP_cons, List.countP_cons]
    have h1 := ih (fun i => f (i + 1)) (fun j b => hf (j + 1) b)
    have h2 : (if p (f 0 a) = true then 1 else 0) ≤ (if p a = true then 1 else 0) := by
      by_cases h : p (f 0 a) = true
      · simp [h, hf 0 a h]
      · simp [h]
    omega

theorem countP_mapIdx_eq_zero (p : Box → Bool) (l : List Box) (f : Nat → Box → Box)
    (hf : ∀ j b, p (f j b) = false) : (l.mapIdx f).countP p = 0 := by
  rw [List.countP_eq_zero]
  intro b hb
  rw [List.mem_iff_getElem?] at hb
  obtain ⟨i, hi⟩ := hb
  rw [List.getElem?_mapIdx] at hi
  simp only [Option.map_eq_some'] at hi
  obtain ⟨a, _, rfl⟩ := hi
  simp [hf]

theorem openBox_eq_mapIdx (box : Nat) (boxes : List Box) :
    openBox box boxes = boxes.mapIdx fun j b => if j = box then openOne b else closeOne b := by
  apply List.ext_getElem?
  intro j
  rw [getElem?_openBox, List.getElem?_mapIdx]

theorem countP_open_le_one (l : List Box) :
    ∀ box : Nat, (l.mapIdx fun j b => if j = box then openOne b else closeOne b).countP isOpen ≤ 1 := by
  induction l with
  | nil => intro _; simp
  | cons a t ih =>
    intro box
    rw [List.mapIdx_cons, List.countP_cons]
    cases box with
    | zero =>
      have h0 : (t.mapIdx fun i b => if i + 1 = 0 then openOne b else closeOne b).countP isOpen = 0 :=
        countP_mapIdx_eq_zero _ _ _ (fun j b => by simp [isOpen, closeOne])
      rw [h0]
      simp only [if_true, zero_add]
      split <;> omega
    | succ n =>
      have h1 := ih n
      have h2 : (fun i b => if i + 1 = n + 1 then openOne b else closeOne b) =
          (fun i b => if i = n then openOne b else closeOne b) := by
        funext i b
        simp
      rw [h2]
      have h3 : isOpen (if 0 = n + 1 then openOne a else closeOne a) = false := by
        simp [isOpen, closeOne]
      simp only [h3]
      simpa using h1

theorem expandedCount_openBox (box : Nat) (boxes : List Box) :
    expandedCount (openBox box boxes) ≤ 1 := by
  rw [openBox_eq_mapIdx]
  exact countP_open_le_one boxes box

theorem expandedCount_boxClick (box : Nat) (boxes : List Box) (h : expandedCount boxes ≤ 1) :
    expandedCount (boxClick box boxes) ≤ 1 := by
  unfold boxClick
  split
  · exact h
  · split
    · refine le_trans (countP_mapIdx_le isOpen boxes _ ?_) h
      intro j b
      by_cases hj : j = box <;> simp [hj, isOpen, collapseOne]
    · exact expandedCount_openBox box boxes

theorem expandedCount_mapIdx_keep (boxes : List Box) (box : Nat) (g : Box → Box)
    (hg : ∀ b, (g b).ariaExpanded = b.ariaExpanded) (h : expandedCount boxes ≤ 1) :
    expandedCount (boxes.mapIdx fun i b => if i = box then g b else b) ≤ 1 := by
  refine le_trans (countP_mapIdx_le isOpen boxes _ ?_) h
  intro j b
  by_cases hj : j = box <;> simp [hj, isOpen, hg]

theorem colorClick_ariaExpanded (k : Nat) (b : Box) :
    (colorClick k b).ariaExpanded = b.ariaExpanded := by
  unfold colorClick
  split
  · rfl
  · split <;> rfl

theorem sizeClick_ariaExpanded (k : Nat) (b : Box) :
    (sizeClick k b).ariaExpanded = b.ariaExpanded := by
  unfold sizeClick
  split <;> rfl

theorem expandedCount_dispatch (box : Nat) (target : Target) (s : State)
    (h : expandedCount s.boxes ≤ 1) :
    expandedCount (dispatch (clickPath box target) s).boxes ≤ 1 := by
  cases target with
  | body => simpa [clickPath, dispatch, boxListener] using expandedCount_boxClick box s.boxes h
  | controls => simpa [clickPath, dispatch, controlsListener] using h
  | color k c =>
    simpa [clickPath, dispatch, colorListener] using
      expandedCount_mapIdx_keep s.boxes box (colorClick k) (colorClick_ariaExpanded k) h
  | size k c =>
    simpa [clickPath, dispatch, sizeListener] using
      expandedCount_mapIdx_keep s.boxes box (sizeClick k) (sizeClick_ariaExpanded k) h

theorem expandedCount_step (s : State) (e : Event) (h : expandedCount s.boxes ≤ 1) :
    expandedCount (step s e).boxes ≤ 1 := by
  cases e with
  | click box target =>
    simp only [step]
    split
    · exact h
    · split
      · exact expandedCount_dispatch box target s h
      · exact h
  | keydown box key =>
    simp only [step, boxKeydown]
    split
    · split
      · exact expandedCount_boxClick box s.boxes h
      · split
        · exact h
        · split <;> exact h
    · exact h

theorem expandedCount_run (events : List Event) :
    ∀ s : State, expandedCount s.boxes ≤ 1 → expandedCount (run s events).boxes ≤ 1 := by
  induction events with
  | nil => intro s h; exact h
  | cons e es ih => intro s h; exact ih (step s e) (expandedCount_step s e h)

/-- C2 as stated fails: without a default box, two boxes whose markup declares them expanded
are both still expanded after startup and a click that collapses neither. -/
theorem atMostOne_fails_without_default :
    expandedCount (run (contentLoaded none ⟨twoExpanded, none⟩)
      [Event.keydown 0 "ArrowDown", Event.keydown 1 "x"]).boxes = 2 := by
  decide

/-- C2 amended: when the default box is present, or at most one box is expanded in the markup,
at most one box is expanded in every state reachable after startup by clicks, key presses,
colour selections and size selections. -/
theorem atMostOne_reachable (boxes : List Box) (focus : Option Nat) (defaultBox : Option Nat)
    (events : List Event) (h : defaultBox.isSome = true ∨ expandedCount boxes ≤ 1) :
    expandedCount (run (contentLoaded defaultBox ⟨boxes, focus⟩) events).boxes ≤ 1 := by
  apply expandedCount_run
  cases defaultBox with
  | none =>
    rcases h with h | h
    · simp at h
    · exact h
  | some d => exact expandedCount_openBox d boxes

theorem atMostOne_reachable_witness :
    ((some 1 : Option Nat).isSome = true ∨ expandedCount twoExpanded ≤ 1) ∧
    expandedCount (run (contentLoaded (some 1) ⟨twoExpanded, none⟩)
      [Event.click 0 Target.body, Event.keydown 0 " "]).boxes ≤ 1 :=
  ⟨Or.inl rfl, atMostOne_reachable twoExpanded none (some 1) _ (Or.inl rfl)⟩

/-! ### The click listener of a box -/

theorem getElem?_mapIdx_at (boxes : List Box) (box : Nat) (g : Box → Box) (j : Nat) :
    (boxes.mapIdx fun i b => if i = box then g b else b)[j]? =
      (boxes[j]?).map fun b => if j = box then g b else b := by
  rw [List.getElem?_mapIdx]

theorem step_click_body (s : State) (B : Nat) :
    (step s (Event.click B Target.body)).boxes = boxClick B s.boxes := by
  simp only [step]
  split
  · rename_i h
    simp [boxClick, h]
  · simp [targetExists, clickPath, dispatch, boxListener]

/-- C3: a click on an expanded box B sets its expansion flag to false, hides its panel (if any),
removes the open marker and leaves every other box as it was; a click on a box that is not
expanded yields exactly the state `openBox(B)` yields. -/
theorem click_toggles (s : State) (B : Nat) (b : Box) (hb : s.boxes[B]? = some b) :
    (isOpen b = true →
      (∃ c, (step s (Event.click B Target.body)).boxes[B]? = some c ∧
        c.ariaExpanded = some "false" ∧ c.classOpen = false ∧
        c.panel = b.panel.map (fun p => { p with ariaHidden := some "true" })) ∧
      (∀ j, j ≠ B → (step s (Event.click B Target.body)).boxes[j]? = s.boxes[j]?) ∧
      (step s (Event.click B Target.body)).boxes.length = s.boxes.length) ∧
    (isOpen b = false →
      (step s (Event.click B Target.body)).boxes = openBox B s.boxes) := by
  rw [step_click_body]
  constructor
  · intro ho
    have hc : boxClick B s.boxes =
        s.boxes.mapIdx fun i c => if i = B then collapseOne c else c := by
      simp [boxClick, hb, ho]
    rw [hc]
    refine ⟨⟨collapseOne b, ?_, rfl, rfl, rfl⟩, ?_, ?_⟩
    · simp [getElem?_mapIdx_at, hb]
    · intro j hj
      rw [getElem?_mapIdx_at]
      cases s.boxes[j]? <;> simp [hj]
    · simp
  · intro ho
    simp [boxClick, hb, ho]

theorem click_toggles_witness :
    (⟨threeBoxes, none⟩ : State).boxes[1]? = some plainBox ∧
    (step ⟨threeBoxes, none⟩ (Event.click 1 Target.body)).boxes = openBox 1 threeBoxes :=
  ⟨rfl, (click_toggles ⟨threeBoxes, none⟩ 1 plainBox rfl).2 (by decide)⟩

/-- C4 fails on the code: after startup opens the default box, a click on that expanded box
collapses it, yet the box still carries the 740px maximum-width override. -/
theorem click_close_keeps_maxWidth :
    ((run (contentLoaded (some 1) ⟨threeBoxes, none⟩) [Event.click 1 Target.body]).boxes[1]?).map
      (fun b => (isOpen b, b.maxWidth)) = some (false, "740px") := by
  decide

/-! ### closeAll on closed boxes -/

/-- C5 as stated fails: every box has expansion flag false, yet `closeAll()` changes the panel
hidden flag, the open marker and the maximum-width override of the box. -/
theorem closeAll_changes_closed_box :
    isOpen staleBox = false ∧
    (closeAll none [staleBox]).map observe = [(false, some true, false, "")] ∧
    [staleBox].map observe = [(false, some false, true, "740px")] := by
  decide

/-- C5 amended: when every box has expansion flag false, a hidden panel (if any), no open marker
and no maximum-width override, `closeAll()` changes no observable of any box. -/
theorem closeAll_noop_on_closed (boxes : List Box)
    (h : ∀ b ∈ boxes, observe b = (false, b.panel.map (fun _ => true), false, "")) :
    (closeAll none boxes).map observe = boxes.map observe := by
  apply List.ext_getElem?
  intro j
  simp only [List.getElem?_map, getElem?_closeAll, Option.map_map]
  cases hj : boxes[j]? with
  | none => rfl
  | some b =>
    have hb := h b (List.mem_iff_getElem?.mpr ⟨j, hj⟩)
    simp only [Option.map_some', Function.comp]
    congr 1
    rw [hb]
    simp only [observe, Prod.mk.injEq] at hb
    have hne : (some j = (none : Option Nat)) = False := by simp
    simp only [observe, closeOne, isOpen, Option.map_map, Prod.mk.injEq, and_true, hne, if_false]
    refine ⟨by decide, ?_⟩
    cases b.panel <;> simp

theorem closeAll_noop_on_closed_witness :
    (∀ b ∈ threeBoxes, observe b = (false, b.panel.map (fun _ => true), false, "")) ∧
    (closeAll none threeBoxes).map observe = threeBoxes.map observe :=
  ⟨by decide, closeAll_noop_on_closed threeBoxes (by decide)⟩

/-! ### Arrow keys -/

/-- C6: with n ≥ 1 boxes, ArrowDown on box i moves the focus to box (i+1) mod n and ArrowUp on
box i moves it to box (i-1) mod n, so both wrap around; the boxes themselves are unchanged. -/
theorem arrows_wrap (s : State) (i : Nat) (hi : i < s.boxes.length) :
    (step s (Event.keydown i "ArrowDown")).focus = some ((i + 1) % s.boxes.length) ∧
    (step s (Event.keydown i "ArrowUp")).focus = some ((i + s.boxes.length - 1) % s.boxes.length) ∧
    (step s (Event.keydown i "ArrowDown")).boxes = s.boxes ∧
    (step s (Event.keydown i "ArrowUp")).boxes = s.boxes ∧
    (i = s.boxes.length - 1 → (step s (Event.keydown i "ArrowDown")).focus = some 0) ∧
    (i = 0 → (step s (Event.keydown i "ArrowUp")).focus = some (s.boxes.length - 1)) := by
  have hd : step s (Event.keydown i "ArrowDown") =
      { s with focus := some (if i + 1 < s.boxes.length then i + 1 else 0) } := by
    simp [step, boxKeydown, hi]
  have hu : step s (Event.keydown i "ArrowUp") =
      { s with focus := some (if 0 < i then i - 1 else s.boxes.length - 1) } := by
    simp [step, boxKeydown, hi]
  rw [hd, hu]
  refine ⟨?_, ?_, rfl, rfl, ?_, ?_⟩
  · simp only [Option.some.injEq]
    split
    · rw [Nat.mod_eq_of_lt (by assumption)]
    · have : i + 1 = s.boxes.length := by omega
      rw [this, Nat.mod_self]
  · simp only [Option.some.injEq]
    split
    · have : i + s.boxes.length - 1 = (i - 1) + s.boxes.length := by omega
      rw [this, Nat.add_mod_right, Nat.mod_eq_of_lt (by omega)]
    · have : i = 0 := by omega
      subst this
      rw [Nat.zero_add, Nat.mod_eq_of_lt (by omega)]
  · intro h
    simp only [Option.some.injEq]
    rw [if_neg (by omega)]
  · intro h
    simp [h]

theorem arrows_wrap_witness :
    2 < (⟨threeBoxes, none⟩ : State).boxes.length ∧
    (step ⟨threeBoxes, none⟩ (Event.keydown 2 "ArrowDown")).focus = some ((2 + 1) % 3) :=
  ⟨by decide, (arrows_wrap ⟨threeBoxes, none⟩ 2 (by decide)).1⟩

/-! ### Clicks inside the controls region -/

theorem colorClick_toggleView (k : Nat) (b : Box) :
    toggleView (colorClick k b) = toggleView b := by
  unfold colorClick
  split
  · rfl
  · split <;> rfl

theorem sizeClick_toggleView (k : Nat) (b : Box) :
    toggleView (sizeClick k b) = toggleView b := by
  unfold sizeClick
  split <;> rfl

theorem map_toggleView_mapIdx (boxes : List Box) (box : Nat) (g : Box → Box)
    (hg : ∀ b, toggleView (g b) = toggleView b) :
    (boxes.mapIdx fun i b => if i = box then g b else b).map toggleView =
      boxes.map toggleView := by
  apply List.ext_getElem?
  intro j
  simp only [List.getElem?_map, List.getElem?_mapIdx, Option.map_map]
  cases boxes[j]? with
  | none => rfl
  | some b =>
    by_cases hj : j = box <;> simp [hj, hg]

theorem dispatch_controls_region (box : Nat) (target : Target) (s : State)
    (ht : target ≠ Target.body) :
    (dispatch (clickPath box target) s).boxes.map toggleView = s.boxes.map toggleView := by
  cases target with
  | body => exact absurd rfl ht
  | controls => simp [clickPath, dispatch, controlsListener]
  | color k c =>
    simpa [clickPath, dispatch, colorListener] using
      map_toggleView_mapIdx s.boxes box (colorClick k) (colorClick_toggleView k)
  | size k c =>
    simpa [clickPath, dispatch, sizeListener] using
      map_toggleView_mapIdx s.boxes box (sizeClick k) (sizeClick_toggleView k)

theorem step_controls_region (box : Nat) (target : Target) (s : State)
    (ht : target ≠ Target.body) :
    (step s (Event.click box target)).boxes.map toggleView = s.boxes.map toggleView := by
  simp only [step]
  split
  · rfl
  · split
    · exact dispatch_controls_region box target s ht
    · rfl

/-- C7: a click on an element inside the controls region of a box (a colour option, a size
option or anything else in the region) never reaches the toggle listener of the box: the
listeners that run are the one of the button (if any) and none after it, and the expansion
flag, panel hidden flag, open marker and maximum-width override of every box are the same
after the click as before it. -/
theorem controls_click_isolated (s : State) (box k : Nat) (c : Bool) :
    (step s (Event.click box Target.controls)).boxes.map toggleView = s.boxes.map toggleView ∧
    (step s (Event.click box (Target.color k c))).boxes.map toggleView =
      s.boxes.map toggleView ∧
    (step s (Event.click box (Target.size k c))).boxes.map toggleView =
      s.boxes.map toggleView ∧
    dispatch (clickPath box Target.controls) s = s ∧
    dispatch (clickPath box (Target.color k c)) s = (colorListener box k s).1 ∧
    dispatch (clickPath box (Target.size k c)) s = (sizeListener box k s).1 := by
  refine ⟨step_controls_region box _ s (by simp), step_controls_region box _ s (by simp),
    step_controls_region box _ s (by simp), ?_, ?_, ?_⟩
  · simp [clickPath, dispatch, controlsListener]
  · simp [clickPath, dispatch, colorListener]
  · simp [clickPath, dispatch, sizeListener]

/-! ### Size options -/

theorem step_click_size (s : State) (box k : Nat) (c : Bool) (b : Box)
    (hb : s.boxes[box]? = some b) (hk : k < b.sizeButtons.length)
    (hc : c = true → b.hasControls = true) :
    (step s (Event.click box (Target.size k c))).boxes[box]? = some (sizeClick k b) := by
  have ht : targetExists b (Target.size k c) = true := by
    cases c <;> simp_all [targetExists]
  simp only [step, hb, ht, if_true, clickPath, dispatch, sizeListener]
  rw [List.getElem?_mapIdx, hb]
  simp

/-- C10: a click on a size option of a box with a preview region sets the preview height to
70px for the label small, to 110px for medium and to 150px for any other label; without a
preview region the box still has none afterwards and the click is handled all the same. -/
theorem size_click_height (s : State) (box k : Nat) (c : Bool) (b : Box) (btn : SizeButton)
    (hb : s.boxes[box]? = some b) (hk : b.sizeButtons[k]? = some btn)
    (hc : c = true → b.hasControls = true) :
    ∃ b', (step s (Event.click box (Target.size k c))).boxes[box]? = some b' ∧
      (btn.dataSize = some "small" →
        ∀ p, b.preview = some p → b'.preview = some { p with height := "70px" }) ∧
      (btn.dataSize = some "medium" →
        ∀ p, b.preview = some p → b'.preview = some { p with height := "110px" }) ∧
      (btn.dataSize ≠ some "small" → btn.dataSize ≠ some "medium" →
        ∀ p, b.preview = some p → b'.preview = some { p with height := "150px" }) ∧
      (b.preview = none → b'.preview = none) := by
  have hlen : k < b.sizeButtons.length := by
    rcases Nat.lt_or_ge k b.sizeButtons.length with h | h
    · exact h
    · rw [List.getElem?_eq_none h] at hk
      cases hk
  refine ⟨sizeClick k b, step_click_size s box k c b hb hlen hc, ?_, ?_, ?_, ?_⟩
  · intro hs p hp
    simp [sizeClick, hk, hp, previewHeight, hs]
  · intro hs p hp
    simp [sizeClick, hk, hp, previewHeight, hs]
  · intro h1 h2 p hp
    simp [sizeClick, hk, hp, previewHeight, h1, h2]
  · intro hp
    simp [sizeClick, hk, hp]

theorem size_click_height_witness :
    (⟨threeBoxes, none⟩ : State).boxes[0]? = some plainBox ∧
    plainBox.sizeButtons[2]? = some ⟨some "large", false, some "false"⟩ ∧
    ∃ b', (step ⟨threeBoxes, none⟩ (Event.click 0 (Target.size 2 true))).boxes[0]? = some b' ∧
      ∀ p, plainBox.preview = some p → b'.preview = some { p with height := "150px" } := by
  refine ⟨rfl, rfl, ?_⟩
  obtain ⟨b', h1, _, _, h4, _⟩ :=
    size_click_height ⟨threeBoxes, none⟩ 0 2 true plainBox ⟨some "large", false, some "false"⟩
      rfl rfl (fun _ => rfl)
  exact ⟨b', h1, h4 (by decide) (by decide)⟩

/-! ### Six hex digits: parsing and channels -/

theorem hexDigit_range (c : Char) (v : Nat) (h : hexDigit c = some v) :
    v < 16 ∧ ((48 ≤ c.toNat ∧ c.toNat ≤ 57) ∨ (97 ≤ c.toNat ∧ c.toNat ≤ 102) ∨
      (65 ≤ c.toNat ∧ c.toNat ≤ 70)) := by
  unfold hexDigit at h
  simp only at h
  split_ifs at h with h1 h2 h3
  · simp only [Option.some.injEq] at h
    omega
  · simp only [Option.some.injEq] at h
    omega
  · simp only [Option.some.injEq] at h
    omega

theorem hexDigit_not_space (c : Char) (v : Nat) (h : hexDigit c = some v) :
    isStrWhiteSpace c = false := by
  have hr := (hexDigit_range c v h).2
  simp only [isStrWhiteSpace, Bool.or_eq_false_iff, Bool.and_eq_false_iff, decide_eq_false_iff_not]
  omega

theorem hexDigit_ne (c d : Char) (v : Nat) (h : hexDigit c = some v) (hd : hexDigit d = none) :
    c ≠ d := by
  intro hcd
  rw [hcd, hd] at h
  cases h

theorem replaceHash_hex (cs : List Char) (h : ∀ c ∈ cs, ∃ v, hexDigit c = some v) :
    replaceHash cs = cs := by
  induction cs with
  | nil => rfl
  | cons c t ih =>
    obtain ⟨v, hv⟩ := h c (List.mem_cons_self c t)
    have hne : c ≠ '#' := hexDigit_ne c '#' v hv (by decide)
    simp only [replaceHash, if_neg hne]
    rw [ih (fun x hx => h x (List.mem_cons_of_mem c hx))]

theorem parseInt16_six (c1 c2 c3 c4 c5 c6 : Char) (v1 v2 v3 v4 v5 v6 : Nat)
    (h1 : hexDigit c1 = some v1) (h2 : hexDigit c2 = some v2) (h3 : hexDigit c3 = some v3)
    (h4 : hexDigit c4 = some v4) (h5 : hexDigit c5 = some v5) (h6 : hexDigit c6 = some v6) :
    parseInt16 [c1, c2, c3, c4, c5, c6] =
      some ((((((16 * (16 * (16 * (16 * (16 * (v1 : Int) + v2) + v3) + v4) + v5) + v6)))))) := by
  have s1 := hexDigit_not_space c1 v1 h1
  have m1 : c1 ≠ '-' := hexDigit_ne c1 '-' v1 h1 (by decide)
  have p1 : c1 ≠ '+' := hexDigit_ne c1 '+' v1 h1 (by decide)
  have x2 : c2 ≠ 'x' := hexDigit_ne c2 'x' v2 h2 (by decide)
  have X2 : c2 ≠ 'X' := hexDigit_ne c2 'X' v2 h2 (by decide)
  simp [parseInt16, List.dropWhile, s1, m1, p1, dropHexMarker, x2, X2, takeHexDigits,
    h1, h2, h3, h4, h5, h6]

theorem toInt32_small (v : Int) (h0 : 0 ≤ v) (h1 : v < 2 ^ 31) :
    toInt32 (Num.fin (v : ℚ)) = v := by
  have hq : (0 : ℚ) ≤ (v : ℚ) := by exact_mod_cast h0
  simp only [toInt32, hq, if_true, Int.floor_intCast]
  have hm : v % 2 ^ 32 = v := Int.emod_eq_of_lt h0 (by omega)
  rw [hm, if_neg (by omega)]

theorem parseInt_six (c1 c2 c3 c4 c5 c6 : Char) (v1 v2 v3 v4 v5 v6 : Nat)
    (h1 : hexDigit c1 = some v1) (h2 : hexDigit c2 = some v2) (h3 : hexDigit c3 = some v3)
    (h4 : hexDigit c4 = some v4) (h5 : hexDigit c5 = some v5) (h6 : hexDigit c6 = some v6) :
    parseInt [c1, c2, c3, c4, c5, c6] =
      Num.fin (((16 * (16 * (16 * (16 * (16 * (v1 : Int) + v2) + v3) + v4) + v5) + v6 : Int) : ℚ)) := by
  have b1 := (hexDigit_range c1 v1 h1).1
  have b2 := (hexDigit_range c2 v2 h2).1
  have b3 := (hexDigit_range c3 v3 h3).1
  have b4 := (hexDigit_range c4 v4 h4).1
  have b5 := (hexDigit_range c5 v5 h5).1
  have b6 := (hexDigit_range c6 v6 h6).1
  unfold parseInt
  rw [parseInt16_six c1 c2 c3 c4 c5 c6 v1 v2 v3 v4 v5 v6 h1 h2 h3 h4 h5 h6]
  simp only
  rw [if_pos]
  rw [abs_of_nonneg (by omega)]
  norm_num
  omega

theorem channels_six (c1 c2 c3 c4 c5 c6 : Char) (v1 v2 v3 v4 v5 v6 : Nat)
    (h1 : hexDigit c1 = some v1) (h2 : hexDigit c2 = some v2) (h3 : hexDigit c3 = some v3)
    (h4 : hexDigit c4 = some v4) (h5 : hexDigit c5 = some v5) (h6 : hexDigit c6 = some v6) :
    channel (parseInt [c1, c2, c3, c4, c5, c6]) 16 = ((16 * v1 + v2 : Nat) : Int) ∧
    channel (parseInt [c1, c2, c3, c4, c5, c6]) 8 = ((16 * v3 + v4 : Nat) : Int) ∧
    channel (parseInt [c1, c2, c3, c4, c5, c6]) 0 = ((16 * v5 + v6 : Nat) : Int) := by
  have b1 := (hexDigit_range c1 v1 h1).1
  have b2 := (hexDigit_range c2 v2 h2).1
  have b3 := (hexDigit_range c3 v3 h3).1
  have b4 := (hexDigit_range c4 v4 h4).1
  have b5 := (hexDigit_range c5 v5 h5).1
  have b6 := (hexDigit_range c6 v6 h6).1
  rw [parseInt_six c1 c2 c3 c4 c5 c6 v1 v2 v3 v4 v5 v6 h1 h2 h3 h4 h5 h6]
  simp only [channel]
  rw [toInt32_small _ (by omega) (by omega)]
  simp only [Int.shiftRight_eq_div_pow]
  push_cast
  refine ⟨by omega, by omega, by omega⟩

theorem replaceHash_six (c1 c2 c3 c4 c5 c6 : Char) (v1 v2 v3 v4 v5 v6 : Nat)
    (h1 : hexDigit c1 = some v1) (h2 : hexDigit c2 = some v2) (h3 : hexDigit c3 = some v3)
    (h4 : hexDigit c4 = some v4) (h5 : hexDigit c5 = some v5) (h6 : hexDigit c6 = some v6) :
    replaceHash [c1, c2, c3, c4, c5, c6] = [c1, c2, c3, c4, c5, c6] ∧
    replaceHash ['#', c1, c2, c3, c4, c5, c6] = [c1, c2, c3, c4, c5, c6] := by
  refine ⟨replaceHash_hex _ ?_, by simp [replaceHash]⟩
  intro c hc
  simp only [List.mem_cons, List.mem_singleton, List.not_mem_nil, or_false] at hc
  rcases hc with rfl | rfl | rfl | rfl | rfl | rfl
  exacts [⟨_, h1⟩, ⟨_, h2⟩, ⟨_, h3⟩, ⟨_, h4⟩, ⟨_, h5⟩, ⟨_, h6⟩]

/-- C9: for six hex digits, with or without one leading `#`, and every opacity text,
`hexToRgba` returns `rgba(r,g,b,a)` where r, g and b are the values of the first, second and
third digit pair, each between 0 and 255. -/
theorem hexToRgba_sixDigits (c1 c2 c3 c4 c5 c6 : Char) (v1 v2 v3 v4 v5 v6 : Nat) (alpha : String)
    (h1 : hexDigit c1 = some v1) (h2 : hexDigit c2 = some v2) (h3 : hexDigit c3 = some v3)
    (h4 : hexDigit c4 = some v4) (h5 : hexDigit c5 = some v5) (h6 : hexDigit c6 = some v6) :
    hexToRgba (String.mk [c1, c2, c3, c4, c5, c6]) alpha =
      "rgba(" ++ toString (16 * v1 + v2) ++ "," ++ toString (16 * v3 + v4) ++ "," ++
        toString (16 * v5 + v6) ++ "," ++ alpha ++ ")" ∧
    hexToRgba (String.mk ['#', c1, c2, c3, c4, c5, c6]) alpha =
      "rgba(" ++ toString (16 * v1 + v2) ++ "," ++ toString (16 * v3 + v4) ++ "," ++
        toString (16 * v5 + v6) ++ "," ++ alpha ++ ")" ∧
    16 * v1 + v2 < 256 ∧ 16 * v3 + v4 < 256 ∧ 16 * v5 + v6 < 256 := by
  have b1 := (hexDigit_range c1 v1 h1).1
  have b2 := (hexDigit_range c2 v2 h2).1
  have b3 := (hexDigit_range c3 v3 h3).1
  have b4 := (hexDigit_range c4 v4 h4).1
  have b5 := (hexDigit_range c5 v5 h5).1
  have b6 := (hexDigit_range c6 v6 h6).1
  obtain ⟨r1, r2⟩ := replaceHash_six c1 c2 c3 c4 c5 c6 v1 v2 v3 v4 v5 v6 h1 h2 h3 h4 h5 h6
  obtain ⟨k1, k2, k3⟩ := channels_six c1 c2 c3 c4 c5 c6 v1 v2 v3 v4 v5 v6 h1 h2 h3 h4 h5 h6
  have ts : ∀ n : Nat, toString ((n : Nat) : Int) = toString n := fun n => rfl
  refine ⟨?_, ?_, by omega, by omega, by omega⟩
  · simp only [hexToRgba, r1, k1, k2, k3, ts]
  · simp only [hexToRgba, r2, k1, k2, k3, ts]

theorem hexToRgba_sixDigits_witness :
    hexDigit '4' = some 4 ∧ hexDigit '7' = some 7 ∧ hexDigit 'B' = some 11 ∧
    hexDigit 'f' = some 15 ∧
    hexToRgba "#47B47f" "0.12" =
      "rgba(" ++ toString (16 * 4 + 7) ++ "," ++ toString (16 * 11 + 4) ++ "," ++
        toString (16 * 7 + 15) ++ "," ++ "0.12" ++ ")" :=
  ⟨by decide, by decide, by decide, by decide,
    (hexToRgba_sixDigits '4' '7' 'B' '4' '7' 'f' 4 7 11 4 7 15 "0.12"
      (by decide) (by decide) (by decide) (by decide) (by decide) (by decide)).2.1⟩

/-! ### Rounding to binary64 -/

theorem roundHalfEven_near (t : ℚ) : |(roundHalfEven t : ℚ) - t| ≤ 1 / 2 := by
  have h1 : (⌊t⌋ : ℚ) ≤ t := Int.floor_le t
  have h2 : t < (⌊t⌋ : ℚ) + 1 := Int.lt_floor_add_one t
  unfold roundHalfEven
  simp only
  split_ifs with a b c
  · rw [abs_le]; constructor <;> linarith
  · rw [abs_le]; push_cast; constructor <;> linarith
  · rw [abs_le]; constructor <;> linarith
  · rw [abs_le]; push_cast; constructor <;> linarith

theorem roundHalfEven_eq (t : ℚ) (m : Int) (h : |t - m| < 1 / 2) : roundHalfEven t = m := by
  rw [abs_lt] at h
  obtain ⟨h1, h2⟩ := h
  unfold roundHalfEven
  simp only
  rcases le_or_lt (m : ℚ) t with hm | hm
  · have hf : ⌊t⌋ = m := by
      rw [Int.floor_eq_iff]
      constructor <;> linarith
    rw [hf, if_pos (by linarith)]
  · have hf : ⌊t⌋ = m - 1 := by
      rw [Int.floor_eq_iff]
      push_cast
      constructor <;> linarith
    rw [hf]
    push_cast
    rw [if_neg (by linarith), if_pos (by linarith)]
    ring

theorem fl_rel_error (q : ℚ) (hq : 0 < q) : |fl q - q| ≤ q / 2 ^ 53 := by
  have hne : q ≠ 0 := ne_of_gt hq
  have hlog : (2 : ℚ) ^ Int.log 2 q ≤ q := Int.zpow_log_le_self (by norm_num) hq
  unfold fl
  simp only [hne, if_false, abs_of_pos hq]
  set s : Int := Int.log 2 q - 52 with hs
  have hpos : (0 : ℚ) < 2 ^ s := zpow_pos (by norm_num) s
  have hr := roundHalfEven_near (q / 2 ^ s)
  have e1 : (roundHalfEven (q / 2 ^ s) : ℚ) * 2 ^ s - q =
      ((roundHalfEven (q / 2 ^ s) : ℚ) - q / 2 ^ s) * 2 ^ s := by
    field_simp
  rw [e1, abs_mul, abs_of_pos hpos]
  have e2 : (2 : ℚ) ^ s = 2 ^ Int.log 2 q / 2 ^ 52 := by
    rw [hs, zpow_sub₀ (by norm_num)]
    norm_num
  calc |(roundHalfEven (q / 2 ^ s) : ℚ) - q / 2 ^ s| * 2 ^ s
      ≤ 1 / 2 * 2 ^ s := by
        exact mul_le_mul_of_nonneg_right hr (le_of_lt hpos)
    _ = 2 ^ Int.log 2 q / 2 ^ 53 := by rw [e2]; ring
    _ ≤ q / 2 ^ 53 := by
        apply div_le_div_of_nonneg_right hlog
        positivity

theorem roundHalfEven_tie (t : ℚ) (e : Int) (he : e % 2 = 0) (h : |t - e| = 1 / 2) :
    roundHalfEven t = e := by
  unfold roundHalfEven
  simp only
  rcases le_or_lt (e : ℚ) t with hm | hm
  · have ht : t = e + 1 / 2 := by
      rw [abs_of_nonneg (by linarith)] at h
      linarith
    have hf : ⌊t⌋ = e := by
      rw [Int.floor_eq_iff]
      constructor <;> linarith
    rw [hf, if_neg (by linarith), if_neg (by linarith), if_pos he]
  · have ht : t = e - 1 / 2 := by
      rw [abs_of_neg (by linarith)] at h
      linarith
    have hf : ⌊t⌋ = e - 1 := by
      rw [Int.floor_eq_iff]
      push_cast
      constructor <;> linarith
    rw [hf]
    push_cast
    rw [if_neg (by linarith), if_neg (by linarith), if_neg (by omega)]
    ring

theorem fl_eq_of_round (q : ℚ) (m : Int) (k : Nat) (hlo : 2 ^ 52 ≤ q * 2 ^ k)
    (hhi : q * 2 ^ k < 2 ^ 53) (hround : roundHalfEven (q * 2 ^ k) = m) :
    fl q = m / 2 ^ k := by
  have hk : (0 : ℚ) < 2 ^ k := by positivity
  have hq : 0 < q := by
    by_contra hn
    have : q * 2 ^ k ≤ 0 := mul_nonpos_of_nonpos_of_nonneg (not_lt.mp hn) (le_of_lt hk)
    have : (0 : ℚ) < 2 ^ 52 := by norm_num
    linarith
  have hlog : Int.log 2 q = 52 - k := by
    apply le_antisymm
    · have : Int.log 2 q < 53 - (k : Int) := by
        rw [← Int.lt_zpow_iff_log_lt (by norm_num) hq, zpow_sub₀ (by norm_num), zpow_natCast]
        push_cast
        rw [lt_div_iff₀ hk]
        have e53 : ((2 : ℚ) ^ (53 : Int)) = 2 ^ (53 : Nat) := by norm_num
        rw [e53]
        exact hhi
      omega
    · rw [← Int.zpow_le_iff_le_log (by norm_num) hq, zpow_sub₀ (by norm_num), zpow_natCast]
      push_cast
      rw [div_le_iff₀ hk]
      have e52 : ((2 : ℚ) ^ (52 : Int)) = 2 ^ (52 : Nat) := by norm_num
      rw [e52]
      exact hlo
  unfold fl
  simp only [ne_of_gt hq, if_false, abs_of_pos hq, hlog]
  have hs : (52 : Int) - k - 52 = -(k : Int) := by ring
  rw [hs, zpow_neg, zpow_natCast, div_inv_eq_mul, hround]
  field_simp

theorem fl_eq_of_near (q : ℚ) (m : Int) (k : Nat) (hlo : 2 ^ 52 ≤ q * 2 ^ k)
    (hhi : q * 2 ^ k < 2 ^ 53) (h1 : (m : ℚ) - 1 / 2 < q * 2 ^ k) (h2 : q * 2 ^ k < m + 1 / 2) :
    fl q = m / 2 ^ k :=
  fl_eq_of_round q m k hlo hhi
    (roundHalfEven_eq _ m (abs_lt.mpr ⟨by linarith, by linarith⟩))

theorem fl_eq_of_tie (q : ℚ) (e : Int) (k : Nat) (hlo : 2 ^ 52 ≤ q * 2 ^ k)
    (hhi : q * 2 ^ k < 2 ^ 53) (he : e % 2 = 0)
    (h : q * 2 ^ k = e + 1 / 2 ∨ q * 2 ^ k = e - 1 / 2) :
    fl q = e / 2 ^ k := by
  refine fl_eq_of_round q e k hlo hhi (roundHalfEven_tie _ e he ?_)
  rcases h with h | h
  · rw [h]; norm_num
  · rw [h]; norm_num

theorem fl_zero : fl 0 = 0 := by
  simp [fl]

theorem fl_between (x lo hi : ℚ) (h0 : 0 ≤ lo) (h1 : lo ≤ x) (h2 : x ≤ hi) :
    lo * (1 - 1 / 2 ^ 53) ≤ fl x ∧ fl x ≤ hi * (1 + 1 / 2 ^ 53) := by
  rcases eq_or_lt_of_le (le_trans h0 h1) with hx | hx
  · subst hx
    have hlo : lo = 0 := le_antisymm h1 h0
    subst hlo
    rw [fl_zero]
    constructor
    · simp
    · have : (0 : ℚ) ≤ 1 + 1 / 2 ^ 53 := by norm_num
      exact mul_nonneg h2 this
  · have he := fl_rel_error x hx
    rw [abs_le] at he
    obtain ⟨e1, e2⟩ := he
    have u1 : (0 : ℚ) ≤ 1 - 1 / 2 ^ 53 := by norm_num
    have u2 : (0 : ℚ) ≤ 1 + 1 / 2 ^ 53 := by norm_num
    have a1 : lo * (1 - 1 / 2 ^ 53) ≤ x * (1 - 1 / 2 ^ 53) := mul_le_mul_of_nonneg_right h1 u1
    have a2 : x * (1 + 1 / 2 ^ 53) ≤ hi * (1 + 1 / 2 ^ 53) := mul_le_mul_of_nonneg_right h2 u2
    constructor
    · have : x * (1 - 1 / 2 ^ 53) = x - x / 2 ^ 53 := by ring
      linarith
    · have : x * (1 + 1 / 2 ^ 53) = x + x / 2 ^ 53 := by ring
      linarith

theorem term_between (A X : ℚ) (hA : 0 ≤ A) (hX : 0 ≤ X) :
    A * X * (1 - 1 / 2 ^ 53) ^ 3 ≤ fl (fl A * fl X) ∧
    fl (fl A * fl X) ≤ A * X * (1 + 1 / 2 ^ 53) ^ 3 := by
  have u1 : (0 : ℚ) ≤ 1 - 1 / 2 ^ 53 := by norm_num
  have u2 : (0 : ℚ) ≤ 1 + 1 / 2 ^ 53 := by norm_num
  obtain ⟨a1, a2⟩ := fl_between A A A hA le_rfl le_rfl
  obtain ⟨x1, x2⟩ := fl_between X X X hX le_rfl le_rfl
  have a0 : 0 ≤ A * (1 - 1 / 2 ^ 53) := mul_nonneg hA u1
  have x0 : 0 ≤ X * (1 - 1 / 2 ^ 53) := mul_nonneg hX u1
  have lo : (A * (1 - 1 / 2 ^ 53)) * (X * (1 - 1 / 2 ^ 53)) ≤ fl A * fl X :=
    mul_le_mul a1 x1 x0 (le_trans a0 a1)
  have hi : fl A * fl X ≤ (A * (1 + 1 / 2 ^ 53)) * (X * (1 + 1 / 2 ^ 53)) :=
    mul_le_mul a2 x2 (le_trans x0 x1) (mul_nonneg hA u2)
  obtain ⟨p1, p2⟩ := fl_between (fl A * fl X) _ _ (mul_nonneg a0 x0) lo hi
  constructor
  · calc A * X * (1 - 1 / 2 ^ 53) ^ 3
        = (A * (1 - 1 / 2 ^ 53)) * (X * (1 - 1 / 2 ^ 53)) * (1 - 1 / 2 ^ 53) := by ring
      _ ≤ fl (fl A * fl X) := p1
  · calc fl (fl A * fl X)
        ≤ (A * (1 + 1 / 2 ^ 53)) * (X * (1 + 1 / 2 ^ 53)) * (1 + 1 / 2 ^ 53) := p2
      _ = A * X * (1 + 1 / 2 ^ 53) ^ 3 := by ring

/-! ### The computed luminance against the exact one -/

theorem luminance_between (r g b : Int) (hr : 0 ≤ r) (hg : 0 ≤ g) (hb : 0 ≤ b) :
    (2126 / 10000 * ((r : ℚ) / 255) + 7152 / 10000 * ((g : ℚ) / 255) +
        722 / 10000 * ((b : ℚ) / 255)) * (1 - 1 / 2 ^ 53) ^ 5 ≤ luminance r g b ∧
    luminance r g b ≤
      (2126 / 10000 * ((r : ℚ) / 255) + 7152 / 10000 * ((g : ℚ) / 255) +
        722 / 10000 * ((b : ℚ) / 255)) * (1 + 1 / 2 ^ 53) ^ 5 := by
  have u1 : (0 : ℚ) ≤ 1 - 1 / 2 ^ 53 := by norm_num
  have u1' : (1 : ℚ) - 1 / 2 ^ 53 ≤ 1 := by norm_num
  have u2 : (1 : ℚ) ≤ 1 + 1 / 2 ^ 53 := by norm_num
  have u20 : (0 : ℚ) ≤ 1 + 1 / 2 ^ 53 := by norm_num
  have xr : (0 : ℚ) ≤ (r : ℚ) / 255 := div_nonneg (by exact_mod_cast hr) (by norm_num)
  have xg : (0 : ℚ) ≤ (g : ℚ) / 255 := div_nonneg (by exact_mod_cast hg) (by norm_num)
  have xb : (0 : ℚ) ≤ (b : ℚ) / 255 := div_nonneg (by exact_mod_cast hb) (by norm_num)
  obtain ⟨p1, q1⟩ := term_between (2126 / 10000) ((r : ℚ) / 255) (by norm_num) xr
  obtain ⟨p2, q2⟩ := term_between (7152 / 10000) ((g : ℚ) / 255) (by norm_num) xg
  obtain ⟨p3, q3⟩ := term_between (722 / 10000) ((b : ℚ) / 255) (by norm_num) xb
  set T1 : ℚ := 2126 / 10000 * ((r : ℚ) / 255) with hT1
  set T2 : ℚ := 7152 / 10000 * ((g : ℚ) / 255) with hT2
  set T3 : ℚ := 722 / 10000 * ((b : ℚ) / 255) with hT3
  have t1 : 0 ≤ T1 := mul_nonneg (by norm_num) xr
  have t2 : 0 ≤ T2 := mul_nonneg (by norm_num) xg
  have t3 : 0 ≤ T3 := mul_nonneg (by norm_num) xb
  have c3 : (0 : ℚ) ≤ (1 - 1 / 2 ^ 53) ^ 3 := pow_nonneg u1 3
  have c4 : (0 : ℚ) ≤ (1 - 1 / 2 ^ 53) ^ 4 := pow_nonneg u1 4
  have s12 : 0 ≤ (T1 + T2) * (1 - 1 / 2 ^ 53) ^ 3 := mul_nonneg (add_nonneg t1 t2) c3
  obtain ⟨a1, a2⟩ := fl_between (fl (fl (2126 / 10000) * fl ((r : ℚ) / 255)) +
      fl (fl (7152 / 10000) * fl ((g : ℚ) / 255)))
    ((T1 + T2) * (1 - 1 / 2 ^ 53) ^ 3) ((T1 + T2) * (1 + 1 / 2 ^ 53) ^ 3) s12
    (by rw [add_mul]; exact add_le_add p1 p2) (by rw [add_mul]; exact add_le_add q1 q2)
  have d34 : T3 * (1 - 1 / 2 ^ 53) ^ 4 ≤ T3 * (1 - 1 / 2 ^ 53) ^ 3 := by
    apply mul_le_mul_of_nonneg_left _ t3
    calc (1 - 1 / 2 ^ 53 : ℚ) ^ 4 = (1 - 1 / 2 ^ 53) ^ 3 * (1 - 1 / 2 ^ 53) := by ring
      _ ≤ (1 - 1 / 2 ^ 53) ^ 3 * 1 := mul_le_mul_of_nonneg_left u1' c3
      _ = (1 - 1 / 2 ^ 53) ^ 3 := by ring
  have e34 : T3 * (1 + 1 / 2 ^ 53) ^ 3 ≤ T3 * (1 + 1 / 2 ^ 53) ^ 4 := by
    apply mul_le_mul_of_nonneg_left _ t3
    calc (1 + 1 / 2 ^ 53 : ℚ) ^ 3 = (1 + 1 / 2 ^ 53) ^ 3 * 1 := by ring
      _ ≤ (1 + 1 / 2 ^ 53) ^ 3 * (1 + 1 / 2 ^ 53) :=
          mul_le_mul_of_nonneg_left u2 (pow_nonneg u20 3)
      _ = (1 + 1 / 2 ^ 53) ^ 4 := by ring
  have lo : (T1 + T2 + T3) * (1 - 1 / 2 ^ 53) ^ 4 ≤
      fl (fl (fl (2126 / 10000) * fl ((r : ℚ) / 255)) +
        fl (fl (7152 / 10000) * fl ((g : ℚ) / 255))) +
      fl (fl (722 / 10000) * fl ((b : ℚ) / 255)) := by
    have : (T1 + T2 + T3) * (1 - 1 / 2 ^ 53) ^ 4 =
        (T1 + T2) * (1 - 1 / 2 ^ 53) ^ 3 * (1 - 1 / 2 ^ 53) + T3 * (1 - 1 / 2 ^ 53) ^ 4 := by
      ring
    linarith
  have hi : fl (fl (fl (2126 / 10000) * fl ((r : ℚ) / 255)) +
        fl (fl (7152 / 10000) * fl ((g : ℚ) / 255))) +
      fl (fl (722 / 10000) * fl ((b : ℚ) / 255)) ≤ (T1 + T2 + T3) * (1 + 1 / 2 ^ 53) ^ 4 := by
    have : (T1 + T2 + T3) * (1 + 1 / 2 ^ 53) ^ 4 =
        (T1 + T2) * (1 + 1 / 2 ^ 53) ^ 3 * (1 + 1 / 2 ^ 53) + T3 * (1 + 1 / 2 ^ 53) ^ 4 := by
      ring
    linarith
  obtain ⟨b1, b2⟩ := fl_between _ _ _
    (mul_nonneg (add_nonneg (add_nonneg t1 t2) t3) c4) lo hi
  unfold luminance
  constructor
  · calc (T1 + T2 + T3) * (1 - 1 / 2 ^ 53) ^ 5
        = (T1 + T2 + T3) * (1 - 1 / 2 ^ 53) ^ 4 * (1 - 1 / 2 ^ 53) := by ring
      _ ≤ _ := b1
  · calc _ ≤ (T1 + T2 + T3) * (1 + 1 / 2 ^ 53) ^ 4 * (1 + 1 / 2 ^ 53) := b2
      _ = (T1 + T2 + T3) * (1 + 1 / 2 ^ 53) ^ 5 := by ring

theorem fl_threshold : fl (6 / 10) = 5404319552844595 / 2 ^ 53 := by
  have h := fl_eq_of_near (6 / 10) 5404319552844595 53 (by norm_num) (by norm_num)
    (by norm_num) (by norm_num)
  rw [h]
  norm_num

theorem luminance_above (r g b : Int) (hr : 0 ≤ r) (hg : 0 ≤ g) (hb : 0 ≤ b)
    (h : 1530000 < 2126 * r + 7152 * g + 722 * b) : fl (6 / 10) < luminance r g b := by
  obtain ⟨lo, _⟩ := luminance_between r g b hr hg hb
  have hN : (1530001 : ℚ) ≤ 2126 * (r : ℚ) + 7152 * g + 722 * b := by
    have : (1530001 : Int) ≤ 2126 * r + 7152 * g + 722 * b := by omega
    exact_mod_cast this
  have hx : (1530001 : ℚ) / 2550000 ≤
      2126 / 10000 * ((r : ℚ) / 255) + 7152 / 10000 * ((g : ℚ) / 255) +
        722 / 10000 * ((b : ℚ) / 255) := by
    have e : 2126 / 10000 * ((r : ℚ) / 255) + 7152 / 10000 * ((g : ℚ) / 255) +
        722 / 10000 * ((b : ℚ) / 255) = (2126 * (r : ℚ) + 7152 * g + 722 * b) / 2550000 := by
      ring
    rw [e]
    exact div_le_div_of_nonneg_right hN (by norm_num)
  have c5 : (0 : ℚ) ≤ (1 - 1 / 2 ^ 53) ^ 5 := by norm_num
  have step := mul_le_mul_of_nonneg_right hx c5
  have num : (5404319552844595 : ℚ) / 2 ^ 53 < 1530001 / 2550000 * (1 - 1 / 2 ^ 53) ^ 5 := by
    norm_num
  rw [fl_threshold]
  linarith

theorem luminance_below (r g b : Int) (hr : 0 ≤ r) (hg : 0 ≤ g) (hb : 0 ≤ b)
    (h : 2126 * r + 7152 * g + 722 * b < 1530000) : luminance r g b < fl (6 / 10) := by
  obtain ⟨_, hi⟩ := luminance_between r g b hr hg hb
  have hN : 2126 * (r : ℚ) + 7152 * g + 722 * b ≤ (1529999 : ℚ) := by
    have : 2126 * r + 7152 * g + 722 * b ≤ (1529999 : Int) := by omega
    exact_mod_cast this
  have hx : 2126 / 10000 * ((r : ℚ) / 255) + 7152 / 10000 * ((g : ℚ) / 255) +
        722 / 10000 * ((b : ℚ) / 255) ≤ (1529999 : ℚ) / 2550000 := by
    have e : 2126 / 10000 * ((r : ℚ) / 255) + 7152 / 10000 * ((g : ℚ) / 255) +
        722 / 10000 * ((b : ℚ) / 255) = (2126 * (r : ℚ) + 7152 * g + 722 * b) / 2550000 := by
      ring
    rw [e]
    exact div_le_div_of_nonneg_right hN (by norm_num)
  have c5 : (0 : ℚ) ≤ (1 + 1 / 2 ^ 53) ^ 5 := by norm_num
  have step := mul_le_mul_of_nonneg_right hx c5
  have num : (1529999 : ℚ) / 2550000 * (1 + 1 / 2 ^ 53) ^ 5 < 5404319552844595 / 2 ^ 53 := by
    norm_num
  rw [fl_threshold]
  linarith

/-! ### The colours whose exact luminance is 0.6 -/

theorem boundaryCheck_true : boundaryCheck = true := by
  decide!

theorem boundary_mem (r g b : Nat) (hr : r < 256) (hb : b < 256)
    (h : 1063 * r + 3576 * g + 361 * b = 765000) : (r, g, b) ∈ boundaryColours := by
  have hc := boundaryCheck_true
  simp only [boundaryCheck, List.all_eq_true, List.mem_range] at hc
  have hk : g - greenFloor r < 27 := by
    unfold greenFloor
    omega
  have hg0 : greenFloor r + (g - greenFloor r) = g := by
    unfold greenFloor
    omega
  have hc2 := hc r hr (g - greenFloor r) hk
  simp only [hg0] at hc2
  have hrest : 765000 - (1063 * r + 3576 * g) = 361 * b := by omega
  have hle : 1063 * r + 3576 * g ≤ 765000 := by omega
  rw [hrest] at hc2
  simp only [Nat.mul_mod_right, Nat.mul_div_cancel_left b (by norm_num : 0 < 361), hle, hb,
    decide_True, Bool.and_self, Bool.not_true, Bool.false_or] at hc2
  simpa using hc2

/-! ### The computed luminance at the colours on the threshold -/

theorem fl_c1 : fl (2126 / 10000) = (((7659722246231740 : Int) : ℚ) / 2 ^ (55 : Nat)) :=
  fl_eq_of_near (2126 / 10000) 7659722246231740 55 (by norm_num) (by norm_num) (by norm_num) (by norm_num)

theorem fl_c2 : fl (7152 / 10000) = (((6441948906990757 : Int) : ℚ) / 2 ^ (53 : Nat)) :=
  fl_eq_of_near (7152 / 10000) 6441948906990757 53 (by norm_num) (by norm_num) (by norm_num) (by norm_num)

theorem fl_c3 : fl (722 / 10000) = (((5202558289538397 : Int) : ℚ) / 2 ^ (56 : Nat)) :=
  fl_eq_of_near (722 / 10000) 5202558289538397 56 (by norm_num) (by norm_num) (by norm_num) (by norm_num)

theorem luminance_6_197_150 : luminance 6 197 150 = (((5404319552844595 : Int) : ℚ) / 2 ^ (53 : Nat)) := by
  have d0 := fl_eq_of_near (((6 : Int) : ℚ) / 255) 6781891203569688 58
    (by norm_num) (by norm_num) (by norm_num) (by norm_num)
  have p0 := fl_eq_of_near ((((7659722246231740 : Int) : ℚ) / 2 ^ (55 : Nat)) * (((6781891203569688 : Int) : ℚ) / 2 ^ (58 : Nat))) 5767320279515663 60
    (by norm_num) (by norm_num) (by norm_num) (by norm_num)
  have d1 := fl_eq_of_near (((197 : Int) : ℚ) / 255) 6958502953662649 53
    (by norm_num) (by norm_num) (by norm_num) (by norm_num)
  have p1 := fl_eq_of_near ((((6441948906990757 : Int) : ℚ) / 2 ^ (53 : Nat)) * (((6958502953662649 : Int) : ℚ) / 2 ^ (53 : Nat))) 4976721312459526 53
    (by norm_num) (by norm_num) (by norm_num) (by norm_num)
  have d2 := fl_eq_of_near (((150 : Int) : ℚ) / 255) 5298352502788819 53
    (by norm_num) (by norm_num) (by norm_num) (by norm_num)
  have p2 := fl_eq_of_near ((((5202558289538397 : Int) : ℚ) / 2 ^ (56 : Nat)) * (((5298352502788819 : Int) : ℚ) / 2 ^ (53 : Nat))) 6120656811221644 57
    (by norm_num) (by norm_num) (by norm_num) (by norm_num)
  have s0 := fl_eq_of_near ((((5767320279515663 : Int) : ℚ) / 2 ^ (60 : Nat)) + (((4976721312459526 : Int) : ℚ) / 2 ^ (53 : Nat))) 5021778502143242 53
    (by norm_num) (by norm_num) (by norm_num) (by norm_num)
  have s1 := fl_eq_of_near ((((5021778502143242 : Int) : ℚ) / 2 ^ (53 : Nat)) + (((6120656811221644 : Int) : ℚ) / 2 ^ (57 : Nat))) 5404319552844595 53
    (by norm_num) (by norm_num) (by norm_num) (by norm_num)
  unfold luminance
  rw [fl_c1, fl_c2, fl_c3, d0, d1, d2, p0, p1, p2, s0, s1]

theorem luminance_23_187_199 : luminance 23 187 199 = (((5404319552844595 : Int) : ℚ) / 2 ^ (53 : Nat)) := by
  have d0 := fl_eq_of_near (((23 : Int) : ℚ) / 255) 6499312403420951 56
    (by norm_num) (by norm_num) (by norm_num) (by norm_num)
  have p0 := fl_eq_of_near ((((7659722246231740 : Int) : ℚ) / 2 ^ (55 : Nat)) * (((6499312403420951 : Int) : ℚ) / 2 ^ (56 : Nat))) 5527015267869177 58
    (by norm_num) (by norm_num) (by norm_num) (by norm_num)
  have d1 := fl_eq_of_near (((187 : Int) : ℚ) / 255) 6605279453476727 53
    (by norm_num) (by norm_num) (by norm_num) (by norm_num)
  have p1 := fl_eq_of_near ((((6441948906990757 : Int) : ℚ) / 2 ^ (53 : Nat)) * (((6605279453476727 : Int) : ℚ) / 2 ^ (53 : Nat))) 4724095865126555 53
    (by norm_num) (by norm_num) (by norm_num) (by norm_num)
  have d2 := fl_eq_of_near (((199 : Int) : ℚ) / 255) 7029147653699833 53
    (by norm_num) (by norm_num) (by norm_num) (by norm_num)
  have p2 := fl_eq_of_near ((((5202558289538397 : Int) : ℚ) / 2 ^ (56 : Nat)) * (((7029147653699833 : Int) : ℚ) / 2 ^ (53 : Nat))) 8120071369554047 57
    (by norm_num) (by norm_num) (by norm_num) (by norm_num)
  have s0 := fl_eq_of_near ((((5527015267869177 : Int) : ℚ) / 2 ^ (58 : Nat)) + (((4724095865126555 : Int) : ℚ) / 2 ^ (53 : Nat))) 4896815092247467 53
    (by norm_num) (by norm_num) (by norm_num) (by norm_num)
  have s1 := fl_eq_of_near ((((4896815092247467 : Int) : ℚ) / 2 ^ (53 : Nat)) + (((8120071369554047 : Int) : ℚ) / 2 ^ (57 : Nat))) 5404319552844595 53
    (by norm_num) (by norm_num) (by norm_num) (by norm_num)
  unfold luminance
  rw [fl_c1, fl_c2, fl_c3, d0, d1, d2, p0, p1, p2, s0, s1]

theorem luminance_37_200_29 : luminance 37 200 29 = (((5404319552844594 : Int) : ℚ) / 2 ^ (53 : Nat)) := by
  have d0 := fl_eq_of_near (((37 : Int) : ℚ) / 255) 5227707802751635 55
    (by norm_num) (by norm_num) (by norm_num) (by norm_num)
  have p0 := fl_eq_of_near ((((7659722246231740 : Int) : ℚ) / 2 ^ (55 : Nat)) * (((5227707802751635 : Int) : ℚ) / 2 ^ (55 : Nat))) 8891285430919981 58
    (by norm_num) (by norm_num) (by norm_num) (by norm_num)
  have d1 := fl_eq_of_near (((200 : Int) : ℚ) / 255) 7064470003718425 53
    (by norm_num) (by norm_num) (by norm_num) (by norm_num)
  have p1 := fl_eq_of_near ((((6441948906990757 : Int) : ℚ) / 2 ^ (53 : Nat)) * (((7064470003718425 : Int) : ℚ) / 2 ^ (53 : Nat))) 5052508946659417 53
    (by norm_num) (by norm_num) (by norm_num) (by norm_num)
  have d2 := fl_eq_of_near (((29 : Int) : ℚ) / 255) 8194785204313373 56
    (by norm_num) (by norm_num) (by norm_num) (by norm_num)
  have p2 := fl_eq_of_near ((((5202558289538397 : Int) : ℚ) / 2 ^ (56 : Nat)) * (((8194785204313373 : Int) : ℚ) / 2 ^ (56 : Nat))) 4733307934011404 59
    (by norm_num) (by norm_num) (by norm_num) (by norm_num)
  have s0 := fl_eq_of_near ((((8891285430919981 : Int) : ℚ) / 2 ^ (58 : Nat)) + (((5052508946659417 : Int) : ℚ) / 2 ^ (53 : Nat))) 5330361616375666 53
    (by norm_num) (by norm_num) (by norm_num) (by norm_num)
  have s1 := fl_eq_of_near ((((5330361616375666 : Int) : ℚ) / 2 ^ (53 : Nat)) + (((4733307934011404 : Int) : ℚ) / 2 ^ (59 : Nat))) 5404319552844594 53
    (by norm_num) (by norm_num) (by norm_num) (by norm_num)
  unfold luminance
  rw [fl_c1, fl_c2, fl_c3, d0, d1, d2, p0, p1, p2, s0, s1]

theorem luminance_40_177_248 : luminance 40 177 248 = (((5404319552844594 : Int) : ℚ) / 2 ^ (53 : Nat)) := by
  have d0 := fl_eq_of_near (((40 : Int) : ℚ) / 255) 5651576002974740 55
    (by norm_num) (by norm_num) (by norm_num) (by norm_num)
  have p0 := fl_eq_of_near ((((7659722246231740 : Int) : ℚ) / 2 ^ (55 : Nat)) * (((5651576002974740 : Int) : ℚ) / 2 ^ (55 : Nat))) 4806100232929719 57
    (by norm_num) (by norm_num) (by norm_num) (by norm_num)
  have d1 := fl_eq_of_near (((177 : Int) : ℚ) / 255) 6252055953290806 53
    (by norm_num) (by norm_num) (by norm_num) (by norm_num)
  have p1 := fl_eq_of_near ((((6441948906990757 : Int) : ℚ) / 2 ^ (53 : Nat)) * (((6252055953290806 : Int) : ℚ) / 2 ^ (53 : Nat))) 8942940835587168 54
    (by norm_num) (by norm_num) (by norm_num) (by norm_num)
  have d2 := fl_eq_of_near (((248 : Int) : ℚ) / 255) 8759942804610847 53
    (by norm_num) (by norm_num) (by norm_num) (by norm_num)
  have p2 := fl_eq_of_near ((((5202558289538397 : Int) : ℚ) / 2 ^ (56 : Nat)) * (((8759942804610847 : Int) : ℚ) / 2 ^ (53 : Nat))) 5059742963943225 56
    (by norm_num) (by norm_num) (by norm_num) (by norm_num)
  have s0 := fl_eq_of_near ((((4806100232929719 : Int) : ℚ) / 2 ^ (57 : Nat)) + (((8942940835587168 : Int) : ℚ) / 2 ^ (54 : Nat))) 4771851682351691 53
    (by norm_num) (by norm_num) (by norm_num) (by norm_num)
  have s1 := fl_eq_of_near ((((4771851682351691 : Int) : ℚ) / 2 ^ (53 : Nat)) + (((5059742963943225 : Int) : ℚ) / 2 ^ (56 : Nat))) 5404319552844594 53
    (by norm_num) (by norm_num) (by norm_num) (by norm_num)
  unfold luminance
  rw [fl_c1, fl_c2, fl_c3, d0, d1, d2, p0, p1, p2, s0, s1]

theorem luminance_54_190_78 : luminance 54 190 78 = (((5404319552844595 : Int) : ℚ) / 2 ^ (53 : Nat)) := by
  have d0 := fl_eq_of_near (((54 : Int) : ℚ) / 255) 7629627604015899 55
    (by norm_num) (by norm_num) (by norm_num) (by norm_num)
  have p0 := fl_eq_of_near ((((7659722246231740 : Int) : ℚ) / 2 ^ (55 : Nat)) * (((7629627604015899 : Int) : ℚ) / 2 ^ (55 : Nat))) 6488235314455121 57
    (by norm_num) (by norm_num) (by norm_num) (by norm_num)
  have d1 := fl_eq_of_near (((190 : Int) : ℚ) / 255) 6711246503532504 53
    (by norm_num) (by norm_num) (by norm_num) (by norm_num)
  have p1 := fl_eq_of_near ((((6441948906990757 : Int) : ℚ) / 2 ^ (53 : Nat)) * (((6711246503532504 : Int) : ℚ) / 2 ^ (53 : Nat))) 4799883499326447 53
    (by norm_num) (by norm_num) (by norm_num) (by norm_num)
  have d2 := fl_eq_of_near (((78 : Int) : ℚ) / 255) 5510286602900372 54
    (by norm_num) (by norm_num) (by norm_num) (by norm_num)
  have p2 := fl_eq_of_near ((((5202558289538397 : Int) : ℚ) / 2 ^ (56 : Nat)) * (((5510286602900372 : Int) : ℚ) / 2 ^ (54 : Nat))) 6365483083670510 58
    (by norm_num) (by norm_num) (by norm_num) (by norm_num)
  have s0 := fl_eq_of_near ((((6488235314455121 : Int) : ℚ) / 2 ^ (57 : Nat)) + (((4799883499326447 : Int) : ℚ) / 2 ^ (53 : Nat))) 5205398206479892 53
    (by norm_num) (by norm_num) (by norm_num) (by norm_num)
  have s1 := fl_eq_of_near ((((5205398206479892 : Int) : ℚ) / 2 ^ (53 : Nat)) + (((6365483083670510 : Int) : ℚ) / 2 ^ (58 : Nat))) 5404319552844595 53
    (by norm_num) (by norm_num) (by norm_num) (by norm_num)
  unfold luminance
  rw [fl_c1, fl_c2, fl_c3, d0, d1, d2, p0, p1, p2, s0, s1]

theorem luminance_71_180_127 : luminance 71 180 127 = (((5404319552844596 : Int) : ℚ) / 2 ^ (53 : Nat)) := by
  have d0 := fl_eq_of_near (((71 : Int) : ℚ) / 255) 5015773702640082 54
    (by norm_num) (by norm_num) (by norm_num) (by norm_num)
  have p0 := fl_eq_of_near ((((7659722246231740 : Int) : ℚ) / 2 ^ (55 : Nat)) * (((5015773702640082 : Int) : ℚ) / 2 ^ (54 : Nat))) 8530827913450252 57
    (by norm_num) (by norm_num) (by norm_num) (by norm_num)
  have d1 := fl_eq_of_near (((180 : Int) : ℚ) / 255) 6358023003346583 53
    (by norm_num) (by norm_num) (by norm_num) (by norm_num)
  have p1 := fl_eq_of_near ((((6441948906990757 : Int) : ℚ) / 2 ^ (53 : Nat)) * (((6358023003346583 : Int) : ℚ) / 2 ^ (53 : Nat))) 4547258051993476 53
    (by norm_num) (by norm_num) (by norm_num) (by norm_num)
  have d2 := fl_eq_of_near (((127 : Int) : ℚ) / 255) 8971876904722400 54
    (by norm_num) (by norm_num) (by norm_num) (by norm_num)
  have p2 := fl_eq_of_near ((((5202558289538397 : Int) : ℚ) / 2 ^ (56 : Nat)) * (((8971876904722400 : Int) : ℚ) / 2 ^ (54 : Nat))) 5182156100167658 57
    (by norm_num) (by norm_num) (by norm_num) (by norm_num)
  have s0 := fl_eq_of_near ((((8530827913450252 : Int) : ℚ) / 2 ^ (57 : Nat)) + (((4547258051993476 : Int) : ℚ) / 2 ^ (53 : Nat))) 5080434796584117 53
    (by norm_num) (by norm_num) (by norm_num) (by norm_num)
  have s1 := fl_eq_of_near ((((5080434796584117 : Int) : ℚ) / 2 ^ (53 : Nat)) + (((5182156100167658 : Int) : ℚ) / 2 ^ (57 : Nat))) 5404319552844596 53
    (by norm_num) (by norm_num) (by norm_num) (by norm_num)
  unfold luminance
  rw [fl_c1, fl_c2, fl_c3, d0, d1, d2, p0, p1, p2, s0, s1]

theorem luminance_88_170_176 : luminance 88 170 176 = (((5404319552844595 : Int) : ℚ) / 2 ^ (53 : Nat)) := by
  have d0 := fl_eq_of_near (((88 : Int) : ℚ) / 255) 6216733603272214 54
    (by norm_num) (by norm_num) (by norm_num) (by norm_num)
  have p0 := fl_eq_of_near ((((7659722246231740 : Int) : ℚ) / 2 ^ (55 : Nat)) * (((6216733603272214 : Int) : ℚ) / 2 ^ (54 : Nat))) 5286710256222691 56
    (by norm_num) (by norm_num) (by norm_num) (by norm_num)
  have d1 := fl_eq_of_near (((170 : Int) : ℚ) / 255) 6004799503160661 53
    (by norm_num) (by norm_num) (by norm_num) (by norm_num)
  have p1 := fl_eq_of_near ((((6441948906990757 : Int) : ℚ) / 2 ^ (53 : Nat)) * (((6004799503160661 : Int) : ℚ) / 2 ^ (53 : Nat))) 8589265209321009 54
    (by norm_num) (by norm_num) (by norm_num) (by norm_num)
  have d2 := fl_eq_of_near (((176 : Int) : ℚ) / 255) 6216733603272214 53
    (by norm_num) (by norm_num) (by norm_num) (by norm_num)
  have p2 := fl_eq_of_near ((((5202558289538397 : Int) : ℚ) / 2 ^ (56 : Nat)) * (((6216733603272214 : Int) : ℚ) / 2 ^ (53 : Nat))) 7181570658500062 57
    (by norm_num) (by norm_num) (by norm_num) (by norm_num)
  have s0 := fl_eq_of_near ((((5286710256222691 : Int) : ℚ) / 2 ^ (56 : Nat)) + (((8589265209321009 : Int) : ℚ) / 2 ^ (54 : Nat))) 4955471386688341 53
    (by norm_num) (by norm_num) (by norm_num) (by norm_num)
  have s1 := fl_eq_of_near ((((4955471386688341 : Int) : ℚ) / 2 ^ (53 : Nat)) + (((7181570658500062 : Int) : ℚ) / 2 ^ (57 : Nat))) 5404319552844595 53
    (by norm_num) (by norm_num) (by norm_num) (by norm_num)
  unfold luminance
  rw [fl_c1, fl_c2, fl_c3, d0, d1, d2, p0, p1, p2, s0, s1]

theorem luminance_102_183_6 : luminance 102 183 6 = (((5404319552844595 : Int) : ℚ) / 2 ^ (53 : Nat)) := by
  have d0 := fl_eq_of_near (((102 : Int) : ℚ) / 255) 7205759403792794 54
    (by norm_num) (by norm_num) (by norm_num) (by norm_num)
  have p0 := fl_eq_of_near ((((7659722246231740 : Int) : ℚ) / 2 ^ (55 : Nat)) * (((7205759403792794 : Int) : ℚ) / 2 ^ (54 : Nat))) 6127777796985392 56
    (by norm_num) (by norm_num) (by norm_num) (by norm_num)
  have d1 := fl_eq_of_near (((183 : Int) : ℚ) / 255) 6463990053402359 53
    (by norm_num) (by norm_num) (by norm_num) (by norm_num)
  have p1 := fl_eq_of_near ((((6441948906990757 : Int) : ℚ) / 2 ^ (53 : Nat)) * (((6463990053402359 : Int) : ℚ) / 2 ^ (53 : Nat))) 4623045686193367 53
    (by norm_num) (by norm_num) (by norm_num) (by norm_num)
  have d2 := fl_eq_of_near (((6 : Int) : ℚ) / 255) 6781891203569688 58
    (by norm_num) (by norm_num) (by norm_num) (by norm_num)
  have p2 := fl_eq_of_near ((((5202558289538397 : Int) : ℚ) / 2 ^ (56 : Nat)) * (((6781891203569688 : Int) : ℚ) / 2 ^ (58 : Nat))) 7834440718363704 62
    (by norm_num) (by norm_num) (by norm_num) (by norm_num)
  have s0 := fl_eq_of_near ((((6127777796985392 : Int) : ℚ) / 2 ^ (56 : Nat)) + (((4623045686193367 : Int) : ℚ) / 2 ^ (53 : Nat))) 5389017910816541 53
    (by norm_num) (by norm_num) (by norm_num) (by norm_num)
  have s1 := fl_eq_of_near ((((5389017910816541 : Int) : ℚ) / 2 ^ (53 : Nat)) + (((7834440718363704 : Int) : ℚ) / 2 ^ (62 : Nat))) 5404319552844595 53
    (by norm_num) (by norm_num) (by norm_num) (by norm_num)
  unfold luminance
  rw [fl_c1, fl_c2, fl_c3, d0, d1, d2, p0, p1, p2, s0, s1]

theorem luminance_105_160_225 : luminance 105 160 225 = (((5404319552844595 : Int) : ℚ) / 2 ^ (53 : Nat)) := by
  have d0 := fl_eq_of_near (((105 : Int) : ℚ) / 255) 7417693503904346 54
    (by norm_num) (by norm_num) (by norm_num) (by norm_num)
  have p0 := fl_eq_of_near ((((7659722246231740 : Int) : ℚ) / 2 ^ (55 : Nat)) * (((7417693503904346 : Int) : ℚ) / 2 ^ (54 : Nat))) 6308006555720256 56
    (by norm_num) (by norm_num) (by norm_num) (by norm_num)
  have d1 := fl_eq_of_near (((160 : Int) : ℚ) / 255) 5651576002974740 53
    (by norm_num) (by norm_num) (by norm_num) (by norm_num)
  have p1 := fl_eq_of_near ((((6441948906990757 : Int) : ℚ) / 2 ^ (53 : Nat)) * (((5651576002974740 : Int) : ℚ) / 2 ^ (53 : Nat))) 8084014314655067 54
    (by norm_num) (by norm_num) (by norm_num) (by norm_num)
  have d2 := fl_eq_of_near (((225 : Int) : ℚ) / 255) 7947528754183228 53
    (by norm_num) (by norm_num) (by norm_num) (by norm_num)
  have p2 := fl_eq_of_near ((((5202558289538397 : Int) : ℚ) / 2 ^ (56 : Nat)) * (((7947528754183228 : Int) : ℚ) / 2 ^ (53 : Nat))) 4590492608416233 56
    (by norm_num) (by norm_num) (by norm_num) (by norm_num)
  have s0 := fl_eq_of_tie ((((6308006555720256 : Int) : ℚ) / 2 ^ (56 : Nat)) + (((8084014314655067 : Int) : ℚ) / 2 ^ (54 : Nat))) 4830507976792566 53
    (by norm_num) (by norm_num) (by decide) (Or.inr (by norm_num))
  have s1 := fl_eq_of_near ((((4830507976792566 : Int) : ℚ) / 2 ^ (53 : Nat)) + (((4590492608416233 : Int) : ℚ) / 2 ^ (56 : Nat))) 5404319552844595 53
    (by norm_num) (by norm_num) (by norm_num) (by norm_num)
  unfold luminance
  rw [fl_c1, fl_c2, fl_c3, d0, d1, d2, p0, p1, p2, s0, s1]

theorem luminance_119_173_55 : luminance 119 173 55 = (((5404319552844595 : Int) : ℚ) / 2 ^ (53 : Nat)) := by
  have d0 := fl_eq_of_near (((119 : Int) : ℚ) / 255) 8406719304424926 54
    (by norm_num) (by norm_num) (by norm_num) (by norm_num)
  have p0 := fl_eq_of_near ((((7659722246231740 : Int) : ℚ) / 2 ^ (55 : Nat)) * (((8406719304424926 : Int) : ℚ) / 2 ^ (54 : Nat))) 7149074096482957 56
    (by norm_num) (by norm_num) (by norm_num) (by norm_num)
  have d1 := fl_eq_of_near (((173 : Int) : ℚ) / 255) 6110766553216438 53
    (by norm_num) (by norm_num) (by norm_num) (by norm_num)
  have p1 := fl_eq_of_near ((((6441948906990757 : Int) : ℚ) / 2 ^ (53 : Nat)) * (((6110766553216438 : Int) : ℚ) / 2 ^ (53 : Nat))) 8740840477720792 54
    (by norm_num) (by norm_num) (by norm_num) (by norm_num)
  have d2 := fl_eq_of_near (((55 : Int) : ℚ) / 255) 7770917004090268 55
    (by norm_num) (by norm_num) (by norm_num) (by norm_num)
  have p2 := fl_eq_of_near ((((5202558289538397 : Int) : ℚ) / 2 ^ (56 : Nat)) * (((7770917004090268 : Int) : ℚ) / 2 ^ (55 : Nat))) 8976963323125078 59
    (by norm_num) (by norm_num) (by norm_num) (by norm_num)
  have s0 := fl_eq_of_near ((((7149074096482957 : Int) : ℚ) / 2 ^ (56 : Nat)) + (((8740840477720792 : Int) : ℚ) / 2 ^ (54 : Nat))) 5264054500920766 53
    (by norm_num) (by norm_num) (by norm_num) (by norm_num)
  have s1 := fl_eq_of_near ((((5264054500920766 : Int) : ℚ) / 2 ^ (53 : Nat)) + (((8976963323125078 : Int) : ℚ) / 2 ^ (59 : Nat))) 5404319552844595 53
    (by norm_num) (by norm_num) (by norm_num) (by norm_num)
  unfold luminance
  rw [fl_c1, fl_c2, fl_c3, d0, d1, d2, p0, p1, p2, s0, s1]

theorem luminance_136_163_104 : luminance 136 163 104 = (((5404319552844595 : Int) : ℚ) / 2 ^ (53 : Nat)) := by
  have d0 := fl_eq_of_near (((136 : Int) : ℚ) / 255) 4803839602528529 53
    (by norm_num) (by norm_num) (by norm_num) (by norm_num)
  have p0 := fl_eq_of_near ((((7659722246231740 : Int) : ℚ) / 2 ^ (55 : Nat)) * (((4803839602528529 : Int) : ℚ) / 2 ^ (53 : Nat))) 8170370395980523 56
    (by norm_num) (by norm_num) (by norm_num) (by norm_num)
  have d1 := fl_eq_of_near (((163 : Int) : ℚ) / 255) 5757543053030516 53
    (by norm_num) (by norm_num) (by norm_num) (by norm_num)
  have p1 := fl_eq_of_near ((((6441948906990757 : Int) : ℚ) / 2 ^ (53 : Nat)) * (((5757543053030516 : Int) : ℚ) / 2 ^ (53 : Nat))) 8235589583054849 54
    (by norm_num) (by norm_num) (by norm_num) (by norm_num)
  have d2 := fl_eq_of_near (((104 : Int) : ℚ) / 255) 7347048803867162 54
    (by norm_num) (by norm_num) (by norm_num) (by norm_num)
  have p2 := fl_eq_of_near ((((5202558289538397 : Int) : ℚ) / 2 ^ (56 : Nat)) * (((7347048803867162 : Int) : ℚ) / 2 ^ (54 : Nat))) 8487310778227346 58
    (by norm_num) (by norm_num) (by norm_num) (by norm_num)
  have s0 := fl_eq_of_near ((((8170370395980523 : Int) : ℚ) / 2 ^ (56 : Nat)) + (((8235589583054849 : Int) : ℚ) / 2 ^ (54 : Nat))) 5139091091024990 53
    (by norm_num) (by norm_num) (by norm_num) (by norm_num)
  have s1 := fl_eq_of_near ((((5139091091024990 : Int) : ℚ) / 2 ^ (53 : Nat)) + (((8487310778227346 : Int) : ℚ) / 2 ^ (58 : Nat))) 5404319552844595 53
    (by norm_num) (by norm_num) (by norm_num) (by norm_num)
  unfold luminance
  rw [fl_c1, fl_c2, fl_c3, d0, d1, d2, p0, p1, p2, s0, s1]

theorem luminance_153_153_153 : luminance 153 153 153 = (((5404319552844595 : Int) : ℚ) / 2 ^ (53 : Nat)) := by
  have d0 := fl_eq_of_near (((153 : Int) : ℚ) / 255) 5404319552844595 53
    (by norm_num) (by norm_num) (by norm_num) (by norm_num)
  have p0 := fl_eq_of_near ((((7659722246231740 : Int) : ℚ) / 2 ^ (55 : Nat)) * (((5404319552844595 : Int) : ℚ) / 2 ^ (53 : Nat))) 4595833347739044 55
    (by norm_num) (by norm_num) (by norm_num) (by norm_num)
  have p1 := fl_eq_of_near ((((6441948906990757 : Int) : ℚ) / 2 ^ (53 : Nat)) * (((5404319552844595 : Int) : ℚ) / 2 ^ (53 : Nat))) 7730338688388908 54
    (by norm_num) (by norm_num) (by norm_num) (by norm_num)
  have p2 := fl_eq_of_near ((((5202558289538397 : Int) : ℚ) / 2 ^ (56 : Nat)) * (((5404319552844595 : Int) : ℚ) / 2 ^ (53 : Nat))) 6243069947446076 57
    (by norm_num) (by norm_num) (by norm_num) (by norm_num)
  have s0 := fl_eq_of_near ((((4595833347739044 : Int) : ℚ) / 2 ^ (55 : Nat)) + (((7730338688388908 : Int) : ℚ) / 2 ^ (54 : Nat))) 5014127681129215 53
    (by norm_num) (by norm_num) (by norm_num) (by norm_num)
  have s1 := fl_eq_of_near ((((5014127681129215 : Int) : ℚ) / 2 ^ (53 : Nat)) + (((6243069947446076 : Int) : ℚ) / 2 ^ (57 : Nat))) 5404319552844595 53
    (by norm_num) (by norm_num) (by norm_num) (by norm_num)
  unfold luminance
  rw [fl_c1, fl_c2, fl_c3, d0, p0, p1, p2, s0, s1]

theorem luminance_170_143_202 : luminance 170 143 202 = (((5404319552844595 : Int) : ℚ) / 2 ^ (53 : Nat)) := by
  have d0 := fl_eq_of_near (((170 : Int) : ℚ) / 255) 6004799503160661 53
    (by norm_num) (by norm_num) (by norm_num) (by norm_num)
  have p0 := fl_eq_of_near ((((7659722246231740 : Int) : ℚ) / 2 ^ (55 : Nat)) * (((6004799503160661 : Int) : ℚ) / 2 ^ (53 : Nat))) 5106481497487826 55
    (by norm_num) (by norm_num) (by norm_num) (by norm_num)
  have d1 := fl_eq_of_near (((143 : Int) : ℚ) / 255) 5051096052658674 53
    (by norm_num) (by norm_num) (by norm_num) (by norm_num)
  have p1 := fl_eq_of_near ((((6441948906990757 : Int) : ℚ) / 2 ^ (53 : Nat)) * (((5051096052658674 : Int) : ℚ) / 2 ^ (53 : Nat))) 7225087793722967 54
    (by norm_num) (by norm_num) (by norm_num) (by norm_num)
  have d2 := fl_eq_of_near (((202 : Int) : ℚ) / 255) 7135114703755609 53
    (by norm_num) (by norm_num) (by norm_num) (by norm_num)
  have p2 := fl_eq_of_near ((((5202558289538397 : Int) : ℚ) / 2 ^ (56 : Nat)) * (((7135114703755609 : Int) : ℚ) / 2 ^ (53 : Nat))) 8242484505778480 57
    (by norm_num) (by norm_num) (by norm_num) (by norm_num)
  have s0 := fl_eq_of_near ((((5106481497487826 : Int) : ℚ) / 2 ^ (55 : Nat)) + (((7225087793722967 : Int) : ℚ) / 2 ^ (54 : Nat))) 4889164271233440 53
    (by norm_num) (by norm_num) (by norm_num) (by norm_num)
  have s1 := fl_eq_of_near ((((4889164271233440 : Int) : ℚ) / 2 ^ (53 : Nat)) + (((8242484505778480 : Int) : ℚ) / 2 ^ (57 : Nat))) 5404319552844595 53
    (by norm_num) (by norm_num) (by norm_num) (by norm_num)
  unfold luminance
  rw [fl_c1, fl_c2, fl_c3, d0, d1, d2, p0, p1, p2, s0, s1]

theorem luminance_184_156_32 : luminance 184 156 32 = (((5404319552844595 : Int) : ℚ) / 2 ^ (53 : Nat)) := by
  have d0 := fl_eq_of_near (((184 : Int) : ℚ) / 255) 6499312403420951 53
    (by norm_num) (by norm_num) (by norm_num) (by norm_num)
  have p0 := fl_eq_of_near ((((7659722246231740 : Int) : ℚ) / 2 ^ (55 : Nat)) * (((6499312403420951 : Int) : ℚ) / 2 ^ (53 : Nat))) 5527015267869177 55
    (by norm_num) (by norm_num) (by norm_num) (by norm_num)
  have d1 := fl_eq_of_near (((156 : Int) : ℚ) / 255) 5510286602900372 53
    (by norm_num) (by norm_num) (by norm_num) (by norm_num)
  have p1 := fl_eq_of_near ((((6441948906990757 : Int) : ℚ) / 2 ^ (53 : Nat)) * (((5510286602900372 : Int) : ℚ) / 2 ^ (53 : Nat))) 7881913956788692 54
    (by norm_num) (by norm_num) (by norm_num) (by norm_num)
  have d2 := fl_eq_of_near (((32 : Int) : ℚ) / 255) 4521260802379792 55
    (by norm_num) (by norm_num) (by norm_num) (by norm_num)
  have p2 := fl_eq_of_near ((((5202558289538397 : Int) : ℚ) / 2 ^ (56 : Nat)) * (((4521260802379792 : Int) : ℚ) / 2 ^ (55 : Nat))) 5222960478909136 59
    (by norm_num) (by norm_num) (by norm_num) (by norm_num)
  have s0 := fl_eq_of_near ((((5527015267869177 : Int) : ℚ) / 2 ^ (55 : Nat)) + (((7881913956788692 : Int) : ℚ) / 2 ^ (54 : Nat))) 5322710795361640 53
    (by norm_num) (by norm_num) (by norm_num) (by norm_num)
  have s1 := fl_eq_of_near ((((5322710795361640 : Int) : ℚ) / 2 ^ (53 : Nat)) + (((5222960478909136 : Int) : ℚ) / 2 ^ (59 : Nat))) 5404319552844595 53
    (by norm_num) (by norm_num) (by norm_num) (by norm_num)
  unfold luminance
  rw [fl_c1, fl_c2, fl_c3, d0, d1, d2, p0, p1, p2, s0, s1]

theorem luminance_187_133_251 : luminance 187 133 251 = (((5404319552844595 : Int) : ℚ) / 2 ^ (53 : Nat)) := by
  have d0 := fl_eq_of_near (((187 : Int) : ℚ) / 255) 6605279453476727 53
    (by norm_num) (by norm_num) (by norm_num) (by norm_num)
  have p0 := fl_eq_of_near ((((7659722246231740 : Int) : ℚ) / 2 ^ (55 : Nat)) * (((6605279453476727 : Int) : ℚ) / 2 ^ (53 : Nat))) 5617129647236609 55
    (by norm_num) (by norm_num) (by norm_num) (by norm_num)
  have d1 := fl_eq_of_near (((133 : Int) : ℚ) / 255) 4697872552472753 53
    (by norm_num) (by norm_num) (by norm_num) (by norm_num)
  have p1 := fl_eq_of_near ((((6441948906990757 : Int) : ℚ) / 2 ^ (53 : Nat)) * (((4697872552472753 : Int) : ℚ) / 2 ^ (53 : Nat))) 6719836899057025 54
    (by norm_num) (by norm_num) (by norm_num) (by norm_num)
  have d2 := fl_eq_of_near (((251 : Int) : ℚ) / 255) 8865909854666623 53
    (by norm_num) (by norm_num) (by norm_num) (by norm_num)
  have p2 := fl_eq_of_near ((((5202558289538397 : Int) : ℚ) / 2 ^ (56 : Nat)) * (((8865909854666623 : Int) : ℚ) / 2 ^ (53 : Nat))) 5120949532055441 56
    (by norm_num) (by norm_num) (by norm_num) (by norm_num)
  have s0 := fl_eq_of_near ((((5617129647236609 : Int) : ℚ) / 2 ^ (55 : Nat)) + (((6719836899057025 : Int) : ℚ) / 2 ^ (54 : Nat))) 4764200861337665 53
    (by norm_num) (by norm_num) (by norm_num) (by norm_num)
  have s1 := fl_eq_of_near ((((4764200861337665 : Int) : ℚ) / 2 ^ (53 : Nat)) + (((5120949532055441 : Int) : ℚ) / 2 ^ (56 : Nat))) 5404319552844595 53
    (by norm_num) (by norm_num) (by norm_num) (by norm_num)
  unfold luminance
  rw [fl_c1, fl_c2, fl_c3, d0, d1, d2, p0, p1, p2, s0, s1]

theorem luminance_201_146_81 : luminance 201 146 81 = (((5404319552844594 : Int) : ℚ) / 2 ^ (53 : Nat)) := by
  have d0 := fl_eq_of_near (((201 : Int) : ℚ) / 255) 7099792353737017 53
    (by norm_num) (by norm_num) (by norm_num) (by norm_num)
  have p0 := fl_eq_of_near ((((7659722246231740 : Int) : ℚ) / 2 ^ (55 : Nat)) * (((7099792353737017 : Int) : ℚ) / 2 ^ (53 : Nat))) 6037663417617960 55
    (by norm_num) (by norm_num) (by norm_num) (by norm_num)
  have d1 := fl_eq_of_near (((146 : Int) : ℚ) / 255) 5157063102714450 53
    (by norm_num) (by norm_num) (by norm_num) (by norm_num)
  have p1 := fl_eq_of_near ((((6441948906990757 : Int) : ℚ) / 2 ^ (53 : Nat)) * (((5157063102714450 : Int) : ℚ) / 2 ^ (53 : Nat))) 7376663062122749 54
    (by norm_num) (by norm_num) (by norm_num) (by norm_num)
  have d2 := fl_eq_of_near (((81 : Int) : ℚ) / 255) 5722220703011924 54
    (by norm_num) (by norm_num) (by norm_num) (by norm_num)
  have p2 := fl_eq_of_near ((((5202558289538397 : Int) : ℚ) / 2 ^ (56 : Nat)) * (((5722220703011924 : Int) : ℚ) / 2 ^ (54 : Nat))) 6610309356119375 58
    (by norm_num) (by norm_num) (by norm_num) (by norm_num)
  have s0 := fl_eq_of_tie ((((6037663417617960 : Int) : ℚ) / 2 ^ (55 : Nat)) + (((7376663062122749 : Int) : ℚ) / 2 ^ (54 : Nat))) 5197747385465864 53
    (by norm_num) (by norm_num) (by decide) (Or.inl (by norm_num))
  have s1 := fl_eq_of_near ((((5197747385465864 : Int) : ℚ) / 2 ^ (53 : Nat)) + (((6610309356119375 : Int) : ℚ) / 2 ^ (58 : Nat))) 5404319552844594 53
    (by norm_num) (by norm_num) (by norm_num) (by norm_num)
  unfold luminance
  rw [fl_c1, fl_c2, fl_c3, d0, d1, d2, p0, p1, p2, s0, s1]

theorem luminance_218_136_130 : luminance 218 136 130 = (((5404319552844595 : Int) : ℚ) / 2 ^ (53 : Nat)) := by
  have d0 := fl_eq_of_near (((218 : Int) : ℚ) / 255) 7700272304053083 53
    (by norm_num) (by norm_num) (by norm_num) (by norm_num)
  have p0 := fl_eq_of_near ((((7659722246231740 : Int) : ℚ) / 2 ^ (55 : Nat)) * (((7700272304053083 : Int) : ℚ) / 2 ^ (53 : Nat))) 6548311567366742 55
    (by norm_num) (by norm_num) (by norm_num) (by norm_num)
  have d1 := fl_eq_of_near (((136 : Int) : ℚ) / 255) 4803839602528529 53
    (by norm_num) (by norm_num) (by norm_num) (by norm_num)
  have p1 := fl_eq_of_near ((((6441948906990757 : Int) : ℚ) / 2 ^ (53 : Nat)) * (((4803839602528529 : Int) : ℚ) / 2 ^ (53 : Nat))) 6871412167456807 54
    (by norm_num) (by norm_num) (by norm_num) (by norm_num)
  have d2 := fl_eq_of_near (((130 : Int) : ℚ) / 255) 4591905502416976 53
    (by norm_num) (by norm_num) (by norm_num) (by norm_num)
  have p2 := fl_eq_of_near ((((5202558289538397 : Int) : ℚ) / 2 ^ (56 : Nat)) * (((4591905502416976 : Int) : ℚ) / 2 ^ (53 : Nat))) 5304569236392091 57
    (by norm_num) (by norm_num) (by norm_num) (by norm_num)
  have s0 := fl_eq_of_near ((((6548311567366742 : Int) : ℚ) / 2 ^ (55 : Nat)) + (((6871412167456807 : Int) : ℚ) / 2 ^ (54 : Nat))) 5072783975570089 53
    (by norm_num) (by norm_num) (by norm_num) (by norm_num)
  have s1 := fl_eq_of_near ((((5072783975570089 : Int) : ℚ) / 2 ^ (53 : Nat)) + (((5304569236392091 : Int) : ℚ) / 2 ^ (57 : Nat))) 5404319552844595 53
    (by norm_num) (by norm_num) (by norm_num) (by norm_num)
  unfold luminance
  rw [fl_c1, fl_c2, fl_c3, d0, d1, d2, p0, p1, p2, s0, s1]

theorem luminance_235_126_179 : luminance 235 126 179 = (((5404319552844595 : Int) : ℚ) / 2 ^ (53 : Nat)) := by
  have d0 := fl_eq_of_near (((235 : Int) : ℚ) / 255) 8300752254369149 53
    (by norm_num) (by norm_num) (by norm_num) (by norm_num)
  have p0 := fl_eq_of_near ((((7659722246231740 : Int) : ℚ) / 2 ^ (55 : Nat)) * (((8300752254369149 : Int) : ℚ) / 2 ^ (53 : Nat))) 7058959717115525 55
    (by norm_num) (by norm_num) (by norm_num) (by norm_num)
  have d1 := fl_eq_of_near (((126 : Int) : ℚ) / 255) 8901232204685216 54
    (by norm_num) (by norm_num) (by norm_num) (by norm_num)
  have p1 := fl_eq_of_near ((((6441948906990757 : Int) : ℚ) / 2 ^ (53 : Nat)) * (((8901232204685216 : Int) : ℚ) / 2 ^ (54 : Nat))) 6366161272790866 54
    (by norm_num) (by norm_num) (by norm_num) (by norm_num)
  have d2 := fl_eq_of_near (((179 : Int) : ℚ) / 255) 6322700653327990 53
    (by norm_num) (by norm_num) (by norm_num) (by norm_num)
  have p2 := fl_eq_of_near ((((5202558289538397 : Int) : ℚ) / 2 ^ (56 : Nat)) * (((6322700653327990 : Int) : ℚ) / 2 ^ (53 : Nat))) 7303983794724494 57
    (by norm_num) (by norm_num) (by norm_num) (by norm_num)
  have s0 := fl_eq_of_near ((((7058959717115525 : Int) : ℚ) / 2 ^ (55 : Nat)) + (((6366161272790866 : Int) : ℚ) / 2 ^ (54 : Nat))) 4947820565674314 53
    (by norm_num) (by norm_num) (by norm_num) (by norm_num)
  have s1 := fl_eq_of_near ((((4947820565674314 : Int) : ℚ) / 2 ^ (53 : Nat)) + (((7303983794724494 : Int) : ℚ) / 2 ^ (57 : Nat))) 5404319552844595 53
    (by norm_num) (by norm_num) (by norm_num) (by norm_num)
  unfold luminance
  rw [fl_c1, fl_c2, fl_c3, d0, d1, d2, p0, p1, p2, s0, s1]

theorem luminance_249_139_9 : luminance 249 139 9 = (((5404319552844594 : Int) : ℚ) / 2 ^ (53 : Nat)) := by
  have d0 := fl_eq_of_near (((249 : Int) : ℚ) / 255) 8795265154629439 53
    (by norm_num) (by norm_num) (by norm_num) (by norm_num)
  have p0 := fl_eq_of_near ((((7659722246231740 : Int) : ℚ) / 2 ^ (55 : Nat)) * (((8795265154629439 : Int) : ℚ) / 2 ^ (53 : Nat))) 7479493487496875 55
    (by norm_num) (by norm_num) (by norm_num) (by norm_num)
  have d1 := fl_eq_of_near (((139 : Int) : ℚ) / 255) 4909806652584305 53
    (by norm_num) (by norm_num) (by norm_num) (by norm_num)
  have p1 := fl_eq_of_near ((((6441948906990757 : Int) : ℚ) / 2 ^ (53 : Nat)) * (((4909806652584305 : Int) : ℚ) / 2 ^ (53 : Nat))) 7022987435856589 54
    (by norm_num) (by norm_num) (by norm_num) (by norm_num)
  have d2 := fl_eq_of_near (((9 : Int) : ℚ) / 255) 5086418402677266 57
    (by norm_num) (by norm_num) (by norm_num) (by norm_num)
  have p2 := fl_eq_of_near ((((5202558289538397 : Int) : ℚ) / 2 ^ (56 : Nat)) * (((5086418402677266 : Int) : ℚ) / 2 ^ (57 : Nat))) 5875830538772778 61
    (by norm_num) (by norm_num) (by norm_num) (by norm_num)
  have s0 := fl_eq_of_near ((((7479493487496875 : Int) : ℚ) / 2 ^ (55 : Nat)) + (((7022987435856589 : Int) : ℚ) / 2 ^ (54 : Nat))) 5381367089802513 53
    (by norm_num) (by norm_num) (by norm_num) (by norm_num)
  have s1 := fl_eq_of_near ((((5381367089802513 : Int) : ℚ) / 2 ^ (53 : Nat)) + (((5875830538772778 : Int) : ℚ) / 2 ^ (61 : Nat))) 5404319552844594 53
    (by norm_num) (by norm_num) (by norm_num) (by norm_num)
  unfold luminance
  rw [fl_c1, fl_c2, fl_c3, d0, d1, d2, p0, p1, p2, s0, s1]

theorem luminance_252_116_228 : luminance 252 116 228 = (((5404319552844595 : Int) : ℚ) / 2 ^ (53 : Nat)) := by
  have d0 := fl_eq_of_near (((252 : Int) : ℚ) / 255) 8901232204685216 53
    (by norm_num) (by norm_num) (by norm_num) (by norm_num)
  have p0 := fl_eq_of_near ((((7659722246231740 : Int) : ℚ) / 2 ^ (55 : Nat)) * (((8901232204685216 : Int) : ℚ) / 2 ^ (53 : Nat))) 7569607866864308 55
    (by norm_num) (by norm_num) (by norm_num) (by norm_num)
  have d1 := fl_eq_of_near (((116 : Int) : ℚ) / 255) 8194785204313373 54
    (by norm_num) (by norm_num) (by norm_num) (by norm_num)
  have p1 := fl_eq_of_near ((((6441948906990757 : Int) : ℚ) / 2 ^ (53 : Nat)) * (((8194785204313373 : Int) : ℚ) / 2 ^ (54 : Nat))) 5860910378124924 54
    (by norm_num) (by norm_num) (by norm_num) (by norm_num)
  have d2 := fl_eq_of_near (((228 : Int) : ℚ) / 255) 8053495804239005 53
    (by norm_num) (by norm_num) (by norm_num) (by norm_num)
  have p2 := fl_eq_of_near ((((5202558289538397 : Int) : ℚ) / 2 ^ (56 : Nat)) * (((8053495804239005 : Int) : ℚ) / 2 ^ (53 : Nat))) 4651699176528449 56
    (by norm_num) (by norm_num) (by norm_num) (by norm_num)
  have s0 := fl_eq_of_near ((((7569607866864308 : Int) : ℚ) / 2 ^ (55 : Nat)) + (((5860910378124924 : Int) : ℚ) / 2 ^ (54 : Nat))) 4822857155778539 53
    (by norm_num) (by norm_num) (by norm_num) (by norm_num)
  have s1 := fl_eq_of_near ((((4822857155778539 : Int) : ℚ) / 2 ^ (53 : Nat)) + (((4651699176528449 : Int) : ℚ) / 2 ^ (56 : Nat))) 5404319552844595 53
    (by norm_num) (by norm_num) (by norm_num) (by norm_num)
  unfold luminance
  rw [fl_c1, fl_c2, fl_c3, d0, d1, d2, p0, p1, p2, s0, s1]


/-! ### getContrastText against the exact threshold -/

theorem exactLuminance_eq (r g b : Nat) :
    exactLuminance r g b = ((2126 * r + 7152 * g + 722 * b : Nat) : ℚ) / 2550000 := by
  unfold exactLuminance
  push_cast
  ring

theorem exactLuminance_gt_iff (r g b : Nat) :
    6 / 10 < exactLuminance r g b ↔ 1530000 < 2126 * r + 7152 * g + 722 * b := by
  rw [exactLuminance_eq, lt_div_iff₀ (by norm_num)]
  have e : (6 : ℚ) / 10 * 2550000 = ((1530000 : Nat) : ℚ) := by norm_num
  rw [e, Nat.cast_lt]

theorem luminance_threshold (r g b : Nat) (hr : r < 256) (hb : b < 256) :
    fl (6 / 10) < luminance (r : Int) (g : Int) (b : Int) ↔
      (6 / 10 < exactLuminance r g b ∨ (r = 71 ∧ g = 180 ∧ b = 127)) := by
  rw [exactLuminance_gt_iff]
  rcases Nat.lt_trichotomy (2126 * r + 7152 * g + 722 * b) 1530000 with hlt | heq | hgt
  · have hl := luminance_below (r : Int) g b (by omega) (by omega) (by omega) (by omega)
    constructor
    · intro h
      exact absurd h (not_lt.mpr (le_of_lt hl))
    · intro h
      omega
  · have hmem := boundary_mem r g b hr hb (by omega)
    simp only [boundaryColours, List.mem_cons, Prod.mk.injEq, List.mem_singleton,
      List.not_mem_nil, or_false] at hmem
    rcases hmem with ⟨rfl, rfl, rfl⟩ |
      ⟨rfl, rfl, rfl⟩ |
      ⟨rfl, rfl, rfl⟩ |
      ⟨rfl, rfl, rfl⟩ |
      ⟨rfl, rfl, rfl⟩ |
      ⟨rfl, rfl, rfl⟩ |
      ⟨rfl, rfl, rfl⟩ |
      ⟨rfl, rfl, rfl⟩ |
      ⟨rfl, rfl, rfl⟩ |
      ⟨rfl, rfl, rfl⟩ |
      ⟨rfl, rfl, rfl⟩ |
      ⟨rfl, rfl, rfl⟩ |
      ⟨rfl, rfl, rfl⟩ |
      ⟨rfl, rfl, rfl⟩ |
      ⟨rfl, rfl, rfl⟩ |
      ⟨rfl, rfl, rfl⟩ |
      ⟨rfl, rfl, rfl⟩ |
      ⟨rfl, rfl, rfl⟩ |
      ⟨rfl, rfl, rfl⟩ |
      ⟨rfl, rfl, rfl⟩
    · simp only [Nat.cast_ofNat, luminance_6_197_150, fl_threshold]
      norm_num
    · simp only [Nat.cast_ofNat, luminance_23_187_199, fl_threshold]
      norm_num
    · simp only [Nat.cast_ofNat, luminance_37_200_29, fl_threshold]
      norm_num
    · simp only [Nat.cast_ofNat, luminance_40_177_248, fl_threshold]
      norm_num
    · simp only [Nat.cast_ofNat, luminance_54_190_78, fl_threshold]
      norm_num
    · simp only [Nat.cast_ofNat, luminance_71_180_127, fl_threshold]
      norm_num
    · simp only [Nat.cast_ofNat, luminance_88_170_176, fl_threshold]
      norm_num
    · simp only [Nat.cast_ofNat, luminance_102_183_6, fl_threshold]
      norm_num
    · simp only [Nat.cast_ofNat, luminance_105_160_225, fl_threshold]
      norm_num
    · simp only [Nat.cast_ofNat, luminance_119_173_55, fl_threshold]
      norm_num
    · simp only [Nat.cast_ofNat, luminance_136_163_104, fl_threshold]
      norm_num
    · simp only [Nat.cast_ofNat, luminance_153_153_153, fl_threshold]
      norm_num
    · simp only [Nat.cast_ofNat, luminance_170_143_202, fl_threshold]
      norm_num
    · simp only [Nat.cast_ofNat, luminance_184_156_32, fl_threshold]
      norm_num
    · simp only [Nat.cast_ofNat, luminance_187_133_251, fl_threshold]
      norm_num
    · simp only [Nat.cast_ofNat, luminance_201_146_81, fl_threshold]
      norm_num
    · simp only [Nat.cast_ofNat, luminance_218_136_130, fl_threshold]
      norm_num
    · simp only [Nat.cast_ofNat, luminance_235_126_179, fl_threshold]
      norm_num
    · simp only [Nat.cast_ofNat, luminance_249_139_9, fl_threshold]
      norm_num
    · simp only [Nat.cast_ofNat, luminance_252_116_228, fl_threshold]
      norm_num
  · have hl := luminance_above (r : Int) g b (by omega) (by omega) (by omega) (by omega)
    constructor
    · intro _
      exact Or.inl hgt
    · intro _
      exact hl

theorem getContrastText_channels (c1 c2 c3 c4 c5 c6 : Char) (v1 v2 v3 v4 v5 v6 : Nat)
    (h1 : hexDigit c1 = some v1) (h2 : hexDigit c2 = some v2) (h3 : hexDigit c3 = some v3)
    (h4 : hexDigit c4 = some v4) (h5 : hexDigit c5 = some v5) (h6 : hexDigit c6 = some v6) :
    getContrastText (String.mk [c1, c2, c3, c4, c5, c6]) =
      (if fl (6 / 10) < luminance ((16 * v1 + v2 : Nat) : Int) ((16 * v3 + v4 : Nat) : Int)
          ((16 * v5 + v6 : Nat) : Int) then "#0f172a" else "#ffffff") ∧
    getContrastText (String.mk ['#', c1, c2, c3, c4, c5, c6]) =
      (if fl (6 / 10) < luminance ((16 * v1 + v2 : Nat) : Int) ((16 * v3 + v4 : Nat) : Int)
          ((16 * v5 + v6 : Nat) : Int) then "#0f172a" else "#ffffff") := by
  obtain ⟨r1, r2⟩ := replaceHash_six c1 c2 c3 c4 c5 c6 v1 v2 v3 v4 v5 v6 h1 h2 h3 h4 h5 h6
  obtain ⟨k1, k2, k3⟩ := channels_six c1 c2 c3 c4 c5 c6 v1 v2 v3 v4 v5 v6 h1 h2 h3 h4 h5 h6
  constructor
  · simp only [getContrastText, r1, k1, k2, k3]
  · simp only [getContrastText, r2, k1, k2, k3]

/-- C8 as stated fails: the colour #47B47F has channels 71, 180, 127 and exact luminance 0.6,
which is not above 0.6, yet `getContrastText` returns the dark foreground. -/
theorem contrast_dark_at_threshold :
    channel (parseInt (replaceHash "#47B47F".data)) 16 = 71 ∧
    channel (parseInt (replaceHash "#47B47F".data)) 8 = 180 ∧
    channel (parseInt (replaceHash "#47B47F".data)) 0 = 127 ∧
    exactLuminance 71 180 127 = 6 / 10 ∧
    getContrastText "#47B47F" = "#0f172a" := by
  have hc := channels_six '4' '7' 'B' '4' '7' 'F' 4 7 11 4 7 15
    (by decide) (by decide) (by decide) (by decide) (by decide) (by decide)
  have hr : replaceHash "#47B47F".data = ['4', '7', 'B', '4', '7', 'F'] := by
    simp [replaceHash]
  refine ⟨?_, ?_, ?_, by norm_num [exactLuminance], ?_⟩
  · rw [hr, hc.1]; rfl
  · rw [hr, hc.2.1]; rfl
  · rw [hr, hc.2.2]; rfl
  · have h := (getContrastText_channels '4' '7' 'B' '4' '7' 'F' 4 7 11 4 7 15
      (by decide) (by decide) (by decide) (by decide) (by decide) (by decide)).2
    have e : luminance ((16 * 4 + 7 : Nat) : Int) ((16 * 11 + 4 : Nat) : Int)
        ((16 * 7 + 15 : Nat) : Int) = luminance 71 180 127 := by
      norm_num
    rw [h, if_pos]
    rw [e, luminance_71_180_127, fl_threshold]
    norm_num

/-- C8 amended: for six hex digits, with or without a leading `#`, with channels R, G, B,
`getContrastText` returns the dark foreground `#0f172a` exactly when the exact luminance
L = 0.2126*(R/255) + 0.7152*(G/255) + 0.0722*(B/255) is above 0.6 or the colour is
(71, 180, 127), and the light foreground `#ffffff` otherwise. -/
theorem getContrastText_sixDigits (c1 c2 c3 c4 c5 c6 : Char) (v1 v2 v3 v4 v5 v6 : Nat)
    (h1 : hexDigit c1 = some v1) (h2 : hexDigit c2 = some v2) (h3 : hexDigit c3 = some v3)
    (h4 : hexDigit c4 = some v4) (h5 : hexDigit c5 = some v5) (h6 : hexDigit c6 = some v6) :
    getContrastText (String.mk [c1, c2, c3, c4, c5, c6]) =
      (if 6 / 10 < exactLuminance (16 * v1 + v2) (16 * v3 + v4) (16 * v5 + v6) ∨
          (16 * v1 + v2 = 71 ∧ 16 * v3 + v4 = 180 ∧ 16 * v5 + v6 = 127)
        then "#0f172a" else "#ffffff") ∧
    getContrastText (String.mk ['#', c1, c2, c3, c4, c5, c6]) =
      (if 6 / 10 < exactLuminance (16 * v1 + v2) (16 * v3 + v4) (16 * v5 + v6) ∨
          (16 * v1 + v2 = 71 ∧ 16 * v3 + v4 = 180 ∧ 16 * v5 + v6 = 127)
        then "#0f172a" else "#ffffff") := by
  have b1 := (hexDigit_range c1 v1 h1).1
  have b2 := (hexDigit_range c2 v2 h2).1
  have b5 := (hexDigit_range c5 v5 h5).1
  have b6 := (hexDigit_range c6 v6 h6).1
  obtain ⟨g1, g2⟩ := getContrastText_channels c1 c2 c3 c4 c5 c6 v1 v2 v3 v4 v5 v6
    h1 h2 h3 h4 h5 h6
  have hT := luminance_threshold (16 * v1 + v2) (16 * v3 + v4) (16 * v5 + v6)
    (by omega) (by omega)
  rw [g1, g2]
  simp only [hT]
  exact ⟨trivial, trivial⟩

theorem getContrastText_sixDigits_witness :
    hexDigit 'F' = some 15 ∧ hexDigit '0' = some 0 ∧
    getContrastText "#FFFFFF" = "#0f172a" ∧ getContrastText "#000000" = "#ffffff" :=
  ⟨by decide, by decide,
    (getContrastText_sixDigits 'F' 'F' 'F' 'F' 'F' 'F' 15 15 15 15 15 15
      (by decide) (by decide) (by decide) (by decide) (by decide) (by decide)).2.trans
      (if_pos (Or.inl (by norm_num [exactLuminance]))),
    (getContrastText_sixDigits '0' '0' '0' '0' '0' '0' 0 0 0 0 0 0
      (by decide) (by decide) (by decide) (by decide) (by decide) (by decide)).2.trans
      (if_neg (by norm_num [exactLuminance]))⟩

end InteractiveBoxes
